import Mathlib

/-!
Verification of the fixed-timestep platformer core of shepherd-the-adventurer.

The JavaScript sources are embedded shallowly:
* JS numbers are modelled as rationals (ℚ); all arithmetic in the embedded
  code paths is exact on the inputs considered.
* A JS entity is one flat record (`Entity`): JS objects are property bags, and
  the class hierarchy (Entity → Player/Sheep/Enemy/Collectible, Enemy →
  Wolf/Boar) only initialises different subsets of the properties.  Fields a
  given constructor does not set are initialised to zero/false/none by
  `mkEntity` and are only read after the corresponding constructor set them,
  mirroring the source.
* `Math.sqrt` has no exact rational counterpart; every definition that needs a
  distance takes an explicit square-root function `sq : ℚ → ℚ` as a parameter,
  and all theorems hold for every such function.
* Mutation is explicit state passing; `forEach` loops become folds/maps in the
  same iteration order as the source.
-/

/-- Integers from `a` to `b` inclusive, the index range of a JS
`for (let i = a; i <= b; i++)` loop. -/
def intRange (a b : ℤ) : List ℤ :=
  (List.range (b + 1 - a).toNat).map (fun (i : ℕ) => a + (i : ℤ))

theorem mem_intRange {a b c : ℤ} : c ∈ intRange a b ↔ a ≤ c ∧ c ≤ b := by
  unfold intRange
  constructor
  · intro h
    obtain ⟨i, hi, rfl⟩ := List.mem_map.mp h
    have := List.mem_range.mp hi
    omega
  · intro h
    exact List.mem_map.mpr ⟨(c - a).toNat, List.mem_range.mpr (by omega), by omega⟩

/-- Row-major tile grid, as consumed by `Physics` (`tilemap.width`,
`tilemap.height`, `tilemap.tileSize`, `tilemap.data`). -/
structure Tilemap where
  width : ℕ
  height : ℕ
  tileSize : ℚ
  data : List ℤ
  deriving DecidableEq, Repr

/-- `tilemap.data[row * tilemap.width + col]`; only evaluated after the
source's range guard, so `row, col ≥ 0` at every use site. -/
def tileAt (tm : Tilemap) (row col : ℤ) : ℤ :=
  tm.data.getD (row.toNat * tm.width + col.toNat) 0

/-- An axis-aligned rectangle `{x, y, width, height}`. -/
structure Rect where
  x : ℚ
  y : ℚ
  width : ℚ
  height : ℚ
  deriving DecidableEq, Repr

/-- One JS game object, flattened: base `Entity` fields plus the fields the
`Player`, `Sheep`, `Enemy`/`Wolf`/`Boar` and `Collectible` constructors add.
`nearbyInteractable` and the sheep's `leader` are object references in JS;
here they are an index into the scene's entity list and a boolean resolving to
the scene's player, matching the only values the source ever stores. -/
structure Entity where
  x : ℚ
  y : ℚ
  prevX : ℚ
  prevY : ℚ
  width : ℚ
  height : ℚ
  hitboxOffsetX : ℚ
  hitboxOffsetY : ℚ
  hitboxWidth : ℚ
  hitboxHeight : ℚ
  velocityX : ℚ
  velocityY : ℚ
  isActive : Bool
  isVisible : Bool
  isGrounded : Bool
  isOnPlatform : Bool
  facingRight : Bool
  type : String
  tags : List String
  moveSpeed : ℚ
  jumpForce : ℚ
  maxJumps : ℤ
  jumpsRemaining : ℤ
  state : String
  isJumping : Bool
  isCrouching : Bool
  canInteract : Bool
  nearbyInteractable : Option ℕ
  coyoteTime : ℚ
  coyoteTimer : ℚ
  jumpBufferTime : ℚ
  jumpBufferTimer : ℚ
  isInvulnerable : Bool
  invulnerabilityTime : ℚ
  invulnerabilityDuration : ℚ
  health : ℚ
  maxHealth : ℚ
  energy : ℚ
  maxEnergy : ℚ
  rescuedSheepCount : ℕ
  isRescued : Bool
  isFollowing : Bool
  hasLeader : Bool
  followDistance : ℚ
  wanderSpeed : ℚ
  showInteractionHint : Bool
  patrolRange : ℚ
  startX : ℚ
  patrolDirection : ℚ
  detectionRange : ℚ
  isAlerted : Bool
  damage : ℚ
  attackCooldown : ℚ
  attackRate : ℚ
  patrolPauseTime : ℚ
  patrolPauseDuration : ℚ
  isPaused : Bool
  lastX : ℚ
  blockedTime : ℚ
  isCharging : Bool
  chargeSpeed : ℚ
  chargeDirection : ℚ
  chargeCooldown : ℚ
  collectibleType : String
  value : ℚ
  healAmount : ℚ
  isCollected : Bool

namespace Entity

/-- `get centerX() { return this.x + this.width / 2 }` -/
def centerX (e : Entity) : ℚ := e.x + e.width / 2

/-- `get centerY() { return this.y + this.height / 2 }` -/
def centerY (e : Entity) : ℚ := e.y + e.height / 2

/-- `get bounds()` of Entity.js. -/
def bounds (e : Entity) : Rect :=
  { x := e.x + e.hitboxOffsetX, y := e.y + e.hitboxOffsetY,
    width := e.hitboxWidth, height := e.hitboxHeight }

/-- `storePreviousPosition()` of Entity.js. -/
def storePreviousPosition (e : Entity) : Entity :=
  { e with prevX := e.x, prevY := e.y }

/-- `Entity.fixedUpdate(dt)` — only stores the previous position. -/
def fixedUpdateBase (e : Entity) : Entity := e.storePreviousPosition

/-- Squared center distance; `distanceTo` is `Math.sqrt` of this, supplied by
the ambient square-root parameter. -/
def distSqTo (e other : Entity) : ℚ :=
  (other.centerX - e.centerX) ^ 2 + (other.centerY - e.centerY) ^ 2

/-- `distanceTo(other)` with the square root passed explicitly. -/
def distanceTo (sq : ℚ → ℚ) (e other : Entity) : ℚ := sq (e.distSqTo other)

/-- `collidesWith(other)` — AABB test of the two hitboxes. -/
def collidesWith (e other : Entity) : Bool :=
  let a := e.bounds
  let b := other.bounds
  decide (a.x < b.x + b.width) && decide (b.x < a.x + a.width) &&
  decide (a.y < b.y + b.height) && decide (b.y < a.y + a.height)

end Entity

/-- The `Entity` constructor: `new Entity(x, y, width, height)`.  Properties
belonging to subclasses are zero/false/none until a subclass constructor
assigns them. -/
def mkEntity (x y width height : ℚ) : Entity :=
  { x := x, y := y, prevX := x, prevY := y, width := width, height := height,
    hitboxOffsetX := 0, hitboxOffsetY := 0,
    hitboxWidth := width, hitboxHeight := height,
    velocityX := 0, velocityY := 0,
    isActive := true, isVisible := true,
    isGrounded := false, isOnPlatform := false, facingRight := true,
    type := "entity", tags := [],
    moveSpeed := 0, jumpForce := 0, maxJumps := 0, jumpsRemaining := 0,
    state := "", isJumping := false, isCrouching := false,
    canInteract := false, nearbyInteractable := none,
    coyoteTime := 0, coyoteTimer := 0,
    jumpBufferTime := 0, jumpBufferTimer := 0,
    isInvulnerable := false, invulnerabilityTime := 0,
    invulnerabilityDuration := 0,
    health := 0, maxHealth := 0, energy := 0, maxEnergy := 0,
    rescuedSheepCount := 0,
    isRescued := false, isFollowing := false, hasLeader := false,
    followDistance := 0, wanderSpeed := 0, showInteractionHint := false,
    patrolRange := 0, startX := 0, patrolDirection := 0,
    detectionRange := 0, isAlerted := false,
    damage := 0, attackCooldown := 0, attackRate := 0,
    patrolPauseTime := 0, patrolPauseDuration := 0, isPaused := false,
    lastX := 0, blockedTime := 0,
    isCharging := false, chargeSpeed := 0, chargeDirection := 0,
    chargeCooldown := 0,
    collectibleType := "", value := 0, healAmount := 0, isCollected := false }

namespace Physics

/-- `this.gravity = 900` (px/s²). -/
def gravity : ℚ := 900

/-- `this.maxFallSpeed = 450` (px/s). -/
def maxFallSpeed : ℚ := 450

/-- `this.fallGravityMultiplier = 1.3`. -/
def fallGravityMultiplier : ℚ := 13 / 10

/-- `Physics.applyGravity(entity, dt)`. -/
def applyGravity (entity : Entity) (dt : ℚ) : Entity :=
  if !entity.isGrounded && !entity.isOnPlatform then
    let gravityMultiplier := if 0 < entity.velocityY then fallGravityMultiplier else 1
    let vy := entity.velocityY + gravity * gravityMultiplier * dt
    { entity with velocityY := min vy maxFallSpeed }
  else entity

/-- `Physics.updatePosition(entity, dt)`. -/
def updatePosition (entity : Entity) (dt : ℚ) : Entity :=
  { entity with x := entity.x + entity.velocityX * dt,
                y := entity.y + entity.velocityY * dt }

/-- `Physics.checkAABB(a, b)`. -/
def checkAABB (a b : Rect) : Bool :=
  decide (a.x < b.x + b.width) && decide (b.x < a.x + a.width) &&
  decide (a.y < b.y + b.height) && decide (b.y < a.y + a.height)

/-- `Physics.getBounds(entity)`.  The JS `entity.hitboxWidth || entity.width`
falls back to the visual size when the hitbox dimension is 0 (falsy). -/
def getBounds (entity : Entity) : Rect :=
  { x := entity.x + entity.hitboxOffsetX,
    y := entity.y + entity.hitboxOffsetY,
    width := if entity.hitboxWidth = 0 then entity.width else entity.hitboxWidth,
    height := if entity.hitboxHeight = 0 then entity.height else entity.hitboxHeight }

/-- Effective hitbox width `entity.hitboxWidth || entity.width`. -/
def hbW (entity : Entity) : ℚ :=
  if entity.hitboxWidth = 0 then entity.width else entity.hitboxWidth

/-- Effective hitbox height `entity.hitboxHeight || entity.height`. -/
def hbH (entity : Entity) : ℚ :=
  if entity.hitboxHeight = 0 then entity.height else entity.hitboxHeight

/-- Body of the double loop of `resolveHorizontalCollision`, for one
`(row, col)` pair.  `b` is the bounds captured before the loop (the source
computes them once and keeps using them even after moving the entity). -/
def horizStep (tm : Tilemap) (solidTiles : List ℤ) (b : Rect)
    (e : Entity) (rc : ℤ × ℤ) : Entity :=
  let ts := tm.tileSize
  if 0 ≤ rc.1 ∧ rc.1 < (tm.height : ℤ) ∧ 0 ≤ rc.2 ∧ rc.2 < (tm.width : ℤ) then
    if solidTiles.contains (tileAt tm rc.1 rc.2) then
      let tileX := rc.2 * ts
      let tileY := rc.1 * ts
      if checkAABB b { x := tileX, y := tileY, width := ts, height := ts } then
        let entityCenterX := b.x + b.width / 2
        let tileCenterX := tileX + ts / 2
        if entityCenterX < tileCenterX then
          { e with x := tileX - hbW e - e.hitboxOffsetX, velocityX := 0 }
        else
          { e with x := tileX + ts - e.hitboxOffsetX, velocityX := 0 }
      else e
    else e
  else e

/-- Row-major list of `(row, col)` pairs visited by a nested
`for (row…) for (col…)` loop. -/
def rowColPairs (top bottom left right : ℤ) : List (ℤ × ℤ) :=
  (intRange top bottom).flatMap (fun row => (intRange left right).map (fun col => (row, col)))

/-- `Physics.resolveHorizontalCollision(entity, tilemap, solidTiles, tileSize)`. -/
def resolveHorizontalCollision (tm : Tilemap) (solidTiles : List ℤ) (e : Entity) : Entity :=
  let b := getBounds e
  let ts := tm.tileSize
  let left := ⌊b.x / ts⌋
  let right := ⌊(b.x + b.width - 1) / ts⌋
  let top := ⌊(b.y + 2) / ts⌋
  let bottom := ⌊(b.y + b.height - 4) / ts⌋
  (rowColPairs top bottom left right).foldl (horizStep tm solidTiles b) e

/-- The per-column test of the ground-snap loop of
`resolveVerticalCollision`: range guard, solid tile at `groundRow`, and feet
within 8 px below the tile top. -/
def snapPred (tm : Tilemap) (solidTiles : List ℤ) (groundRow : ℤ) (feetY : ℚ) (col : ℤ) : Bool :=
  decide (0 ≤ groundRow) && decide (groundRow < (tm.height : ℤ)) &&
  decide (0 ≤ col) && decide (col < (tm.width : ℤ)) &&
  solidTiles.contains (tileAt tm groundRow col) &&
  decide (groundRow * tm.tileSize ≤ feetY) &&
  decide (feetY < groundRow * tm.tileSize + 8)

/-- Body of the fallback overlap loop of `resolveVerticalCollision` for one
`(row, col)` pair; the bounds are recomputed from the current entity each
iteration (`const newBounds = this.getBounds(entity)`). -/
def vertStep (tm : Tilemap) (solidTiles : List ℤ) (e : Entity) (rc : ℤ × ℤ) : Entity :=
  let ts := tm.tileSize
  if 0 ≤ rc.1 ∧ rc.1 < (tm.height : ℤ) ∧ 0 ≤ rc.2 ∧ rc.2 < (tm.width : ℤ) then
    if solidTiles.contains (tileAt tm rc.1 rc.2) then
      let tileX := rc.2 * ts
      let tileY := rc.1 * ts
      let newBounds := getBounds e
      if checkAABB newBounds { x := tileX, y := tileY, width := ts, height := ts } then
        if 0 < e.velocityY then
          { e with y := tileY - hbH e - e.hitboxOffsetY, velocityY := 0, isGrounded := true }
        else if e.velocityY < 0 then
          { e with y := tileY + ts - e.hitboxOffsetY, velocityY := 0 }
        else e
      else e
    else e
  else e

/-- `Physics.resolveVerticalCollision(entity, tilemap, solidTiles, tileSize,
wasGrounded)`.  The ground-snap loop returns on the first matching column;
since the state written does not depend on which column matched, it is
rendered as an `any` test guarding a single update. -/
def resolveVerticalCollision (tm : Tilemap) (solidTiles : List ℤ)
    (wasGrounded : Bool) (e : Entity) : Entity :=
  let b := getBounds e
  let ts := tm.tileSize
  let left := ⌊(b.x + 2) / ts⌋
  let right := ⌊(b.x + b.width - 3) / ts⌋
  let top := ⌊b.y / ts⌋
  let bottom := ⌊(b.y + b.height - 1) / ts⌋
  let groundRow := ⌊(b.y + b.height) / ts⌋
  if (wasGrounded || decide (0 ≤ e.velocityY)) &&
     (intRange left right).any (snapPred tm solidTiles groundRow (b.y + b.height)) then
    { e with y := groundRow * ts - hbH e - e.hitboxOffsetY,
             velocityY := 0, isGrounded := true }
  else
    (rowColPairs top bottom left right).foldl (vertStep tm solidTiles) e

/-- `Physics.resolveTilemapCollision(entity, tilemap, solidTiles)`. -/
def resolveTilemapCollision (tm : Tilemap) (solidTiles : List ℤ) (e : Entity) : Entity :=
  let wasGrounded := e.isGrounded
  let e := { e with isGrounded := false, isOnPlatform := false }
  let e := resolveHorizontalCollision tm solidTiles e
  resolveVerticalCollision tm solidTiles wasGrounded e

end Physics

/-- The abstract input snapshot consumed by `Player.handleInput`:
`getHorizontalAxis()`, `isDown('crouch')`, `isPressed('jump')`,
`isReleased('jump')`, `isPressed('action')`. -/
structure Input where
  horizontalAxis : ℚ
  crouchDown : Bool
  jumpPressed : Bool
  jumpReleased : Bool
  actionPressed : Bool
  deriving DecidableEq, Repr

namespace Player

/-- `Player.jump()`. -/
def jump (p : Entity) : Entity :=
  { p with velocityY := -p.jumpForce, isGrounded := false, isJumping := true,
           jumpsRemaining := p.jumpsRemaining - 1 }

/-- `Player.die()`. -/
def die (p : Entity) : Entity := { p with isActive := false }

/-- `Player.heal(amount)` — energy only. -/
def heal (p : Entity) (amount : ℚ) : Entity :=
  { p with energy := min (p.energy + amount) p.maxEnergy }

/-- `Player.healHeart(amount)` — hearts only (the `oldHealth` comparison in
the source only gates a console log). -/
def healHeart (p : Entity) (amount : ℚ) : Entity :=
  { p with health := min (p.health + amount) p.maxHealth }

/-- `Player.takeDamage(amount, source)`. -/
def takeDamage (p : Entity) (amount : ℚ) (source : Option Entity) : Entity :=
  if p.isInvulnerable then p
  else
    let p := { p with health := max 0 (p.health - amount),
                      isInvulnerable := true,
                      invulnerabilityTime := p.invulnerabilityDuration }
    let p := { p with velocityY := -250 }
    let p : Entity :=
      match source with
      | some s =>
          let knockbackDir : ℚ := if s.centerX < p.centerX then 1 else -1
          { p with velocityX := knockbackDir * 200 }
      | none => p
    if p.health ≤ 0 then die p else p

/-- `Player.handleInput`, lines 118–151: horizontal movement with
acceleration, deceleration and air control, plus the facing update. -/
def handleMovement (p : Entity) (input : Input) (dt : ℚ) : Entity :=
  let moveX := input.horizontalAxis
  let acceleration : ℚ := 1800
  let deceleration : ℚ := 2400
  let airControl : ℚ := 7 / 10
  let targetVelocityX := moveX * p.moveSpeed
  let accelRate := if p.isGrounded then acceleration else acceleration * airControl
  let decelRate := if p.isGrounded then deceleration else deceleration * airControl
  if ¬p.isCrouching ∨ ¬p.isGrounded then
    let p :=
      if 1 / 10 < |targetVelocityX| then
        if p.velocityX < targetVelocityX then
          { p with velocityX := min (p.velocityX + accelRate * dt) targetVelocityX }
        else if targetVelocityX < p.velocityX then
          { p with velocityX := max (p.velocityX - accelRate * dt) targetVelocityX }
        else p
      else
        if 0 < p.velocityX then
          { p with velocityX := max 0 (p.velocityX - decelRate * dt) }
        else if p.velocityX < 0 then
          { p with velocityX := min 0 (p.velocityX + decelRate * dt) }
        else p
    if 0 < moveX then { p with facingRight := true }
    else if moveX < 0 then { p with facingRight := false }
    else p
  else { p with velocityX := 0 }

/-- `Player.handleInput`, lines 153–162: crouch flag and hitbox switch. -/
def handleCrouch (p : Entity) (input : Input) : Entity :=
  if input.crouchDown && p.isGrounded then
    { p with isCrouching := true, hitboxHeight := 40, hitboxOffsetY := 24 }
  else
    { p with isCrouching := false, hitboxHeight := 56, hitboxOffsetY := 8 }

/-- `Player.handleInput(input, dt)`, lines 118–191: everything except the
final interaction branch, which touches another entity and is therefore
applied at scene level. -/
def handleInputSelf (p : Entity) (input : Input) (dt : ℚ) : Entity :=
  let p := handleMovement p input dt
  let p := handleCrouch p input
  let p := if input.jumpPressed then { p with jumpBufferTimer := p.jumpBufferTime } else p
  let p : Entity :=
    if p.isGrounded then { p with coyoteTimer := p.coyoteTime, jumpsRemaining := p.maxJumps }
    else { p with coyoteTimer := p.coyoteTimer - dt }
  let p :=
    if 0 < p.jumpBufferTimer then
      if 0 < p.coyoteTimer ∨ 0 < p.jumpsRemaining then
        { jump p with jumpBufferTimer := 0, coyoteTimer := 0 }
      else p
    else p
  let p : Entity := { p with jumpBufferTimer := p.jumpBufferTimer - dt }
  if input.jumpReleased && decide (p.velocityY < 0) then
    { p with velocityY := p.velocityY * (1 / 2) }
  else p

/-- `Player.fixedUpdate(dt)`. -/
def fixedUpdate (p : Entity) : Entity :=
  let p := Entity.fixedUpdateBase p
  let p := if 0 < p.velocityY then { p with isGrounded := false } else p
  if p.isGrounded && p.isJumping then { p with isJumping := false } else p

end Player

/-- The `Player` constructor of the heart-based variant (`jumpForce = 520`). -/
def mkPlayer (x y : ℚ) : Entity :=
  { mkEntity x y 48 64 with
    type := "player", tags := ["player"],
    hitboxOffsetX := 12, hitboxOffsetY := 8, hitboxWidth := 24, hitboxHeight := 56,
    moveSpeed := 250, jumpForce := 520, maxJumps := 1, jumpsRemaining := 1,
    state := "idle",
    coyoteTime := 1 / 10, jumpBufferTime := 1 / 10,
    invulnerabilityDuration := 3,
    health := 3, maxHealth := 3, energy := 100, maxEnergy := 100 }

namespace Sheep

/-- `Sheep.rescue(player)`; the leader reference stored is always the player. -/
def rescue (s : Entity) : Entity :=
  if s.isRescued then s
  else { s with isRescued := true, isFollowing := true, hasLeader := true }

/-- `Sheep.followLeader(dt)`; `leader` is the entity the sheep's leader
reference points at (the player). -/
def followLeader (sq : ℚ → ℚ) (s leader : Entity) : Entity :=
  let dx := leader.centerX - s.centerX
  let dy := leader.y + leader.height - (s.y + s.height)
  let distance := sq (dx * dx + dy * dy)
  let minDistance : ℚ := 70
  let maxDistance : ℚ := 120
  if maxDistance < distance then
    let speed := s.moveSpeed
    let dirX := dx / distance
    let s := { s with velocityX := dirX * speed, facingRight := decide (0 < dx) }
    if dy < -40 && s.isGrounded then { s with velocityY := -350, isGrounded := false } else s
  else if minDistance < distance then
    let speed := s.moveSpeed * (2 / 5)
    let dirX := dx / distance
    { s with velocityX := dirX * speed, facingRight := decide (0 < dx) }
  else if distance < minDistance - 10 then
    let dirX : ℚ := if 0 < dx then -1 else 1
    { s with velocityX := dirX * s.moveSpeed * (3 / 10) }
  else
    { s with velocityX := 0 }

/-- `Sheep.wander(dt)` — the body after the early `return` is dead code, so
the effective behavior is standing still. -/
def wander (s : Entity) : Entity := { s with velocityX := 0 }

/-- `Sheep.fixedUpdate(dt)`; the leader reference resolves to the scene's
player. -/
def fixedUpdate (sq : ℚ → ℚ) (s leaderPlayer : Entity) : Entity :=
  let s := Entity.fixedUpdateBase s
  if s.isRescued && s.hasLeader then followLeader sq s leaderPlayer else wander s

end Sheep

/-- The `Sheep` constructor (wool color is visual only and omitted). -/
def mkSheep (x y : ℚ) : Entity :=
  { mkEntity x y 40 32 with
    type := "sheep", tags := ["sheep", "interactable"],
    hitboxOffsetX := 4, hitboxOffsetY := 4, hitboxWidth := 32, hitboxHeight := 28,
    followDistance := 50, moveSpeed := 200, wanderSpeed := 30,
    state := "" }

namespace Enemy

/-- `Enemy.detectPlayer(player)`; the boolean result is discarded by the only
caller, and the `target` reference always denotes the player, so only the
flag/state writes are kept. -/
def detectPlayer (sq : ℚ → ℚ) (e player : Entity) : Entity :=
  let distance := Entity.distanceTo sq e player
  let verticalDiff := |player.y - e.y|
  if distance < e.detectionRange ∧ verticalDiff < 64 then
    { e with isAlerted := true, state := "chase" }
  else e

/-- `Enemy.patrol(dt)`. -/
def patrol (e : Entity) (dt : ℚ) : Entity :=
  if e.isPaused then
    let e := { e with velocityX := 0, patrolPauseTime := e.patrolPauseTime - dt }
    if e.patrolPauseTime ≤ 0 then
      let d := e.patrolDirection * -1
      { e with isPaused := false, blockedTime := 0, patrolDirection := d,
               facingRight := decide (0 < d) }
    else e
  else
    let e := { e with velocityX := e.patrolDirection * e.moveSpeed,
                      facingRight := decide (0 < e.patrolDirection) }
    let leftBound := e.startX - e.patrolRange
    let rightBound := e.startX + e.patrolRange
    let isBlocked := |e.x - e.lastX| < 1 / 2 ∧ 10 < |e.velocityX|
    let e :=
      if isBlocked then
        let e := { e with blockedTime := e.blockedTime + dt }
        if 1 / 10 < e.blockedTime then
          { e with isPaused := true, patrolPauseTime := e.patrolPauseDuration,
                   velocityX := 0, blockedTime := 0 }
        else e
      else { e with blockedTime := 0 }
    let e : Entity := { e with lastX := e.x }
    if 0 < e.patrolDirection ∧ rightBound ≤ e.x then
      { e with x := rightBound, isPaused := true,
               patrolPauseTime := e.patrolPauseDuration, velocityX := 0 }
    else if e.patrolDirection < 0 ∧ e.x ≤ leftBound then
      { e with x := leftBound, isPaused := true,
               patrolPauseTime := e.patrolPauseDuration, velocityX := 0 }
    else e

/-- `Enemy.chase(player, dt)` (base class version; `dt` is unused there). -/
def chase (sq : ℚ → ℚ) (e player : Entity) : Entity :=
  let dx := player.centerX - e.centerX
  let distance := Entity.distanceTo sq e player
  let verticalDiff := |player.y - e.y|
  if 64 < verticalDiff then
    let e := { e with velocityX := 0, facingRight := decide (0 < dx) }
    if e.detectionRange * (3 / 2) < distance then
      { e with isAlerted := false, state := "patrol" }
    else e
  else
    let e := { e with facingRight := decide (0 < dx) }
    let e :=
      if 30 < distance then
        { e with velocityX := (if 0 < dx then 1 else -1) * e.moveSpeed * (3 / 2) }
      else { e with velocityX := 0, state := "attack" }
    if e.detectionRange * 2 < distance then
      { e with isAlerted := false, state := "patrol" }
    else e

/-- `Enemy.attack(player, dt)`; `player.takeDamage(this.damage)` passes no
source (JS default `source = null`). -/
def attack (sq : ℚ → ℚ) (e player : Entity) (dt : ℚ) : Entity × Entity :=
  let e := { e with attackCooldown := e.attackCooldown - dt }
  let ep :=
    if e.attackCooldown ≤ 0 then
      if e.collidesWith player then
        ({ e with attackCooldown := 1 / e.attackRate },
         Player.takeDamage player e.damage none)
      else (e, player)
    else (e, player)
  let e := ep.1
  let player := ep.2
  if 50 < Entity.distanceTo sq e player then ({ e with state := "chase" }, player)
  else (e, player)

/-- `Boar.chase(player, dt)` — the charge override; falls back to the base
chase otherwise, and always ticks the charge cooldown at the end. -/
def boarChase (sq : ℚ → ℚ) (e player : Entity) (dt : ℚ) : Entity :=
  let distance := Entity.distanceTo sq e player
  let e :=
    if distance < 120 ∧ ¬e.isCharging ∧ e.chargeCooldown ≤ 0 then
      { e with isCharging := true,
               chargeDirection := if e.centerX < player.centerX then 1 else -1 }
    else e
  let e :=
    if e.isCharging then
      let e := { e with velocityX := e.chargeDirection * e.chargeSpeed,
                        facingRight := decide (0 < e.chargeDirection) }
      if e.patrolRange * (3 / 2) < |e.x - e.startX| then
        { e with isCharging := false, chargeCooldown := 2 }
      else e
    else chase sq e player
  { e with chargeCooldown := e.chargeCooldown - dt }

/-- `Enemy.updateWithPlayer(dt, player)`.  The virtual `chase` dispatch is by
class: boars (tagged `"boar"`) use the charge override. -/
def updateWithPlayer (sq : ℚ → ℚ) (e player : Entity) (dt : ℚ) : Entity × Entity :=
  let e := if ¬e.isAlerted then detectPlayer sq e player else e
  if e.state = "patrol" then (patrol e dt, player)
  else if e.state = "chase" then
    (if e.tags.contains "boar" then boarChase sq e player dt else chase sq e player, player)
  else if e.state = "attack" then attack sq e player dt
  else (e, player)

end Enemy

/-- The `Enemy` base constructor. -/
def mkEnemy (x y width height : ℚ) : Entity :=
  { mkEntity x y width height with
    type := "enemy", tags := ["enemy", "dangerous"],
    moveSpeed := 60, patrolRange := 200, startX := x, patrolDirection := 1,
    detectionRange := 200,
    damage := 20, attackCooldown := 0, attackRate := 1,
    patrolPauseTime := 0, patrolPauseDuration := 2, isPaused := false,
    lastX := x, blockedTime := 0,
    state := "patrol" }

/-- The `Wolf` constructor. -/
def mkWolf (x y : ℚ) : Entity :=
  let e := mkEnemy x y 56 40
  { e with tags := e.tags ++ ["wolf"],
           moveSpeed := 80, detectionRange := 250, damage := 25 }

/-- The `Boar` constructor. -/
def mkBoar (x y : ℚ) : Entity :=
  let e := mkEnemy x y 52 36
  { e with tags := e.tags ++ ["boar"],
           moveSpeed := 50, detectionRange := 150, damage := 30,
           isCharging := false, chargeSpeed := 250, chargeCooldown := 0 }

namespace Collectible

/-- `Collectible.setupType()` — colors and bob parameters are visual only and
omitted; there is no `'heart'` case, such a type takes the default branch. -/
def setupType (c : Entity) : Entity :=
  if c.collectibleType = "berry" then
    { c with value := 10, healAmount := 10 }
  else if c.collectibleType = "herb" then
    { c with value := 15, healAmount := 20 }
  else if c.collectibleType = "golden-wool" then
    { c with value := 100, healAmount := 0, tags := c.tags ++ ["golden-wool"] }
  else
    { c with value := 5, healAmount := 5 }

/-- `Collectible.collect(player)`. -/
def collect (c player : Entity) : Entity × Entity :=
  if c.isCollected then (c, player)
  else
    let c := { c with isCollected := true, isVisible := false }
    if 0 < c.healAmount then (c, Player.heal player c.healAmount) else (c, player)

end Collectible

/-- The `Collectible` constructor: base fields, then `setupType()`. -/
def mkCollectible (x y : ℚ) (ctype : String) : Entity :=
  Collectible.setupType
    { mkEntity x y 24 24 with
      type := "collectible", collectibleType := ctype, tags := ["collectible"],
      hitboxOffsetX := 4, hitboxOffsetY := 4, hitboxWidth := 16, hitboxHeight := 16,
      isCollected := false }

/-- `this.solidTiles = [1, 2, 3, 4, 5, 7]` of GameScene. -/
def solidTilesGS : List ℤ := [1, 2, 3, 4, 5, 7]

section FoldHelpers

variable {α β : Type}

/-- A fold over steps that all fix `y` stays at `y`. -/
theorem foldl_fixed (f : α → β → α) (l : List β) (y : α)
    (h : ∀ q ∈ l, f y q = y) : l.foldl f y = y := by
  induction l with
  | nil => rfl
  | cons q t ih =>
      have hq := h q (List.mem_cons_self q t)
      simpa [List.foldl_cons, hq] using ih fun q hq => h q (List.mem_cons_of_mem _ hq)

/-- A fold in which every step other than `p` is the identity, and the `p`
step is idempotent, computes `f x p`. -/
theorem foldl_single (f : α → β → α) (p : β) (l : List β)
    (hid : ∀ q ∈ l, q ≠ p → ∀ x, f x q = x)
    (hfix : ∀ x, f (f x p) p = f x p)
    (hmem : p ∈ l) (x : α) : l.foldl f x = f x p := by
  induction l generalizing x with
  | nil => cases hmem
  | cons q t ih =>
      by_cases hq : q = p
      · subst hq
        simp only [List.foldl_cons]
        refine foldl_fixed f t (f x q) fun q' hq' => ?_
        by_cases hq'' : q' = q
        · subst hq''; exact hfix x
        · exact hid q' (List.mem_cons_of_mem _ hq') hq'' (f x q)
      · have hx := hid q (List.mem_cons_self q t) hq x
        have hmem' : p ∈ t := by
          rcases List.mem_cons.mp hmem with h | h
          · exact absurd h.symm hq
          · exact h
        simp only [List.foldl_cons, hx]
        exact ih (fun q' hq' hne => hid q' (List.mem_cons_of_mem _ hq') hne) hmem' x

end FoldHelpers

theorem mem_rowColPairs {t b l r : ℤ} {rc : ℤ × ℤ} :
    rc ∈ Physics.rowColPairs t b l r ↔ (t ≤ rc.1 ∧ rc.1 ≤ b) ∧ (l ≤ rc.2 ∧ rc.2 ≤ r) := by
  obtain ⟨row, col⟩ := rc
  constructor
  · intro h
    obtain ⟨row', hrow', hcol⟩ := List.mem_flatMap.mp h
    obtain ⟨col', hcol', heq⟩ := List.mem_map.mp hcol
    obtain ⟨rfl, rfl⟩ := Prod.mk.injEq row' col' row col |>.mp heq
    exact ⟨mem_intRange.mp hrow', mem_intRange.mp hcol'⟩
  · rintro ⟨⟨h1, h2⟩, ⟨h3, h4⟩⟩
    exact List.mem_flatMap.mpr ⟨row, mem_intRange.mpr ⟨h1, h2⟩,
      List.mem_map.mpr ⟨col, mem_intRange.mpr ⟨h3, h4⟩, rfl⟩⟩

/-- C2: one gravity application on an airborne body adds `g·1.3·dt` when
falling (`vy > 0`) and `g·1.0·dt` otherwise, then clamps to
`maxFallSpeed = 450`; grounded or on-platform bodies are unchanged; and any
positive number of gravity applications leaves `velocityY ≤ 450`. -/
theorem gravity_clamp_spec (e : Entity) (dt : ℚ) (n : ℕ)
    (hg : e.isGrounded = false) (hp : e.isOnPlatform = false) (hn : 1 ≤ n) :
    (Physics.applyGravity e dt).velocityY
      = min (e.velocityY + 900 * (if 0 < e.velocityY then (13 : ℚ) / 10 else 1) * dt) 450
    ∧ (∀ f : Entity, f.isGrounded = true ∨ f.isOnPlatform = true →
        Physics.applyGravity f dt = f)
    ∧ ((fun s => Physics.applyGravity s dt)^[n] e).velocityY ≤ 450 := by
  refine ⟨?_, ?_, ?_⟩
  · simp [Physics.applyGravity, hg, hp, Physics.gravity, Physics.fallGravityMultiplier,
      Physics.maxFallSpeed]
  · intro f hf
    rcases hf with h | h <;> simp [Physics.applyGravity, h]
  · obtain ⟨m, rfl⟩ : ∃ m, n = m + 1 := ⟨n - 1, by omega⟩
    clear hn
    induction m generalizing e with
    | zero =>
        simp [Physics.applyGravity, hg, hp, Physics.maxFallSpeed]
    | succ k ih =>
        rw [Function.iterate_succ_apply]
        exact ih (Physics.applyGravity e dt)
          (by simp [Physics.applyGravity, hg, hp])
          (by simp [Physics.applyGravity, hg, hp])

/-- C2 witness: a freshly constructed airborne entity, one tick. -/
theorem gravity_clamp_spec_witness :
    ((fun s => Physics.applyGravity s (1 / 60))^[1] (mkEntity 0 0 10 10)).velocityY ≤ 450 :=
  (gravity_clamp_spec (mkEntity 0 0 10 10) (1 / 60) 1 rfl rfl (le_refl 1)).2.2


/-- `intRange` on an empty interval. -/
theorem intRange_eq_nil {a b : ℤ} (h : b < a) : intRange a b = [] := by
  unfold intRange
  have h0 : (b + 1 - a).toNat = 0 := by omega
  simp [h0]

/-- Peel the first index off `intRange`; together with `intRange_eq_nil` this
evaluates the loop ranges on concrete inputs. -/
theorem intRange_succ_left {a b : ℤ} (h : a ≤ b) : intRange a b = a :: intRange (a + 1) b := by
  unfold intRange
  obtain ⟨n, hn⟩ : ∃ n : ℕ, (b + 1 - a).toNat = n + 1 := ⟨(b - a).toNat, by omega⟩
  have hn' : (b + 1 - (a + 1)).toNat = n := by omega
  rw [hn, hn', List.range_succ_eq_map]
  simp only [List.map_cons, List.map_map, Nat.cast_zero, add_zero, List.cons.injEq]
  refine ⟨trivial, List.map_congr_left fun i _ => ?_⟩
  simp only [Function.comp_apply]
  push_cast
  ring

/-- The grid for the C3 counterexample: a single solid tile at row 0,
column 1 of a 3×1 strip. -/
def c3Tm : Tilemap := { width := 3, height := 1, tileSize := 32, data := [0, 1, 0] }

/-- A stationary entity (zero velocity-X) overlapping that tile. -/
def c3E : Entity := mkEntity 20 4 24 24

/-- C3 counterexample: an entity with zero velocity-X that overlaps a solid
tile IS pushed horizontally by the horizontal pass (from x = 20 onto the
tile's left edge at x = 8); the code chooses the push side by comparing
centers, not by velocity sign, and does not leave zero-velocity bodies
alone. -/
theorem horizontal_zero_velocity_pushed :
    c3E.velocityX = 0
    ∧ (Physics.resolveHorizontalCollision c3Tm solidTilesGS c3E).x = 8
    ∧ (Physics.resolveHorizontalCollision c3Tm solidTilesGS c3E).x ≠ c3E.x := by
  have hx : (Physics.resolveHorizontalCollision c3Tm solidTilesGS c3E).x = 8 := by
    norm_num [Physics.resolveHorizontalCollision, Physics.horizStep, Physics.getBounds,
      Physics.hbW, Physics.rowColPairs, intRange_succ_left, intRange_eq_nil, tileAt,
      Physics.checkAABB, c3Tm, c3E, mkEntity, solidTilesGS]
  refine ⟨rfl, hx, ?_⟩
  rw [hx]
  norm_num [c3E, mkEntity]

/-- Evaluation of one horizontal-pass loop step on a tile that passes the
range, solidity and (stale-bounds) overlap tests. -/
theorem horizStep_eval (tm : Tilemap) (solidTiles : List ℤ) (b : Rect) (x : Entity)
    (r c : ℤ)
    (hrange : 0 ≤ r ∧ r < (tm.height : ℤ) ∧ 0 ≤ c ∧ c < (tm.width : ℤ))
    (hsolid : solidTiles.contains (tileAt tm r c) = true)
    (hAABB : Physics.checkAABB b
        { x := c * tm.tileSize, y := r * tm.tileSize,
          width := tm.tileSize, height := tm.tileSize } = true) :
    Physics.horizStep tm solidTiles b x (r, c) =
      if b.x + b.width / 2 < c * tm.tileSize + tm.tileSize / 2 then
        { x with x := c * tm.tileSize - Physics.hbW x - x.hitboxOffsetX, velocityX := 0 }
      else
        { x with x := c * tm.tileSize + tm.tileSize - x.hitboxOffsetX, velocityX := 0 } := by
  simp only [Physics.horizStep]
  rw [if_pos hrange, if_pos hsolid, if_pos hAABB]

/-- C3 (amended): in the horizontal pass, for a solid tile that overlaps the
vertically-shrunk band of the hitbox and is the only solid tile of the grid,
the push-out side is chosen by comparing the hitbox center with the tile
center — center left of tile center ⇒ clamp to the tile's left edge,
otherwise clamp to the tile's right edge — and velocity-X is zeroed on
contact regardless of its sign (zero-velocity bodies are pushed too). -/
theorem horizontal_center_rule (tm : Tilemap) (solidTiles : List ℤ) (e : Entity) (r c : ℤ)
    (hsolid : solidTiles.contains (tileAt tm r c) = true)
    (hsingle : ∀ rc ∈ Physics.rowColPairs 0 ((tm.height : ℤ) - 1) 0 ((tm.width : ℤ) - 1),
        solidTiles.contains (tileAt tm rc.1 rc.2) = true → rc = (r, c))
    (hr0 : 0 ≤ r) (hrh : r < (tm.height : ℤ)) (hc0 : 0 ≤ c) (hcw : c < (tm.width : ℤ))
    (hband1 : ⌊((Physics.getBounds e).y + 2) / tm.tileSize⌋ ≤ r)
    (hband2 : r ≤ ⌊((Physics.getBounds e).y + (Physics.getBounds e).height - 4) / tm.tileSize⌋)
    (hband3 : ⌊(Physics.getBounds e).x / tm.tileSize⌋ ≤ c)
    (hband4 : c ≤ ⌊((Physics.getBounds e).x + (Physics.getBounds e).width - 1) / tm.tileSize⌋)
    (hoverlap : Physics.checkAABB (Physics.getBounds e)
        { x := c * tm.tileSize, y := r * tm.tileSize,
          width := tm.tileSize, height := tm.tileSize } = true) :
    (Physics.resolveHorizontalCollision tm solidTiles e).velocityX = 0
    ∧ (Physics.resolveHorizontalCollision tm solidTiles e).x =
        (if (Physics.getBounds e).x + (Physics.getBounds e).width / 2
            < c * tm.tileSize + tm.tileSize / 2
         then c * tm.tileSize - Physics.hbW e - e.hitboxOffsetX
         else c * tm.tileSize + tm.tileSize - e.hitboxOffsetX) := by
  have hfold : Physics.resolveHorizontalCollision tm solidTiles e
      = Physics.horizStep tm solidTiles (Physics.getBounds e) e (r, c) := by
    simp only [Physics.resolveHorizontalCollision]
    refine foldl_single _ (r, c) _ ?_ ?_ ?_ e
    · rintro ⟨r', c'⟩ hq hne x
      simp only [Physics.horizStep]
      by_cases hrange : 0 ≤ r' ∧ r' < (tm.height : ℤ) ∧ 0 ≤ c' ∧ c' < (tm.width : ℤ)
      · rw [if_pos hrange]
        by_cases hsol : solidTiles.contains (tileAt tm r' c') = true
        · have hmem' : (r', c') ∈ Physics.rowColPairs 0 ((tm.height : ℤ) - 1)
              0 ((tm.width : ℤ) - 1) := by
            refine mem_rowColPairs.mpr ⟨⟨?_, ?_⟩, ?_, ?_⟩ <;> omega
          exact absurd (hsingle (r', c') hmem' hsol) hne
        · rw [if_neg hsol]
      · rw [if_neg hrange]
    · intro x
      rw [horizStep_eval tm solidTiles (Physics.getBounds e) _ r c ⟨hr0, hrh, hc0, hcw⟩
          hsolid hoverlap,
        horizStep_eval tm solidTiles (Physics.getBounds e) x r c ⟨hr0, hrh, hc0, hcw⟩
          hsolid hoverlap]
      by_cases hcen : (Physics.getBounds e).x + (Physics.getBounds e).width / 2
          < c * tm.tileSize + tm.tileSize / 2
      · simp only [if_pos hcen]
        simp [Physics.hbW]
      · simp only [if_neg hcen]
    · refine mem_rowColPairs.mpr ⟨⟨hband1, hband2⟩, hband3, hband4⟩
  rw [hfold, horizStep_eval tm solidTiles (Physics.getBounds e) e r c ⟨hr0, hrh, hc0, hcw⟩
      hsolid hoverlap]
  by_cases hcen : (Physics.getBounds e).x + (Physics.getBounds e).width / 2
      < c * tm.tileSize + tm.tileSize / 2
  · simp only [if_pos hcen]
    simp
  · simp only [if_neg hcen]
    simp

/-- C3 amended-claim witness: the single-tile grid of the counterexample,
where the stationary entity's center lies left of the tile center and is
clamped to the tile's left edge. -/
theorem horizontal_center_rule_witness :
    (Physics.resolveHorizontalCollision c3Tm solidTilesGS c3E).velocityX = 0
    ∧ (Physics.resolveHorizontalCollision c3Tm solidTilesGS c3E).x =
        (if (Physics.getBounds c3E).x + (Physics.getBounds c3E).width / 2
            < (1 : ℤ) * c3Tm.tileSize + c3Tm.tileSize / 2
         then (1 : ℤ) * c3Tm.tileSize - Physics.hbW c3E - c3E.hitboxOffsetX
         else (1 : ℤ) * c3Tm.tileSize + c3Tm.tileSize - c3E.hitboxOffsetX) :=
  horizontal_center_rule c3Tm solidTilesGS c3E 0 1
    (by decide)
    (by decide)
    (by decide) (by decide) (by decide) (by decide)
    (by norm_num [Physics.getBounds, c3E, c3Tm, mkEntity])
    (by norm_num [Physics.getBounds, c3E, c3Tm, mkEntity])
    (by norm_num [Physics.getBounds, c3E, c3Tm, mkEntity])
    (by norm_num [Physics.getBounds, c3E, c3Tm, mkEntity])
    (by norm_num [Physics.checkAABB, Physics.getBounds, c3E, c3Tm, mkEntity])

/-- The grid for the C1 counterexample: a single solid tile at row 1,
column 1 (pixel box [32,64)×[32,64)). -/
def c1Tm : Tilemap := { width := 2, height := 2, tileSize := 32, data := [0, 0, 0, 1] }

/-- A body falling at exactly `maxFallSpeed` whose hitbox overlaps that tile
by 2 px horizontally — less than the 2/3 px the vertical pass shrinks its
column band by. -/
def c1E : Entity := { mkEntity 10 9 24 24 with velocityY := 450 }

/-- C1 counterexample: the feet of `c1E` cross the top edge of the solid tile
during this tick (previous feet position 25.5 < 32 ≤ 33) while moving down at
`maxFallSpeed`, and its hitbox overlaps the tile, yet the full tilemap
resolution leaves it ungrounded with unchanged velocity and position — the
corner sliver is outside the shrunk column band, so the body tunnels on. -/
theorem corner_sliver_tunnels :
    c1E.velocityY = 450
    ∧ (Physics.getBounds c1E).y + (Physics.getBounds c1E).height
        - c1E.velocityY * (1 / 60) < 32
    ∧ 32 ≤ (Physics.getBounds c1E).y + (Physics.getBounds c1E).height
    ∧ Physics.checkAABB (Physics.getBounds c1E)
        { x := 32, y := 32, width := 32, height := 32 } = true
    ∧ tileAt c1Tm 1 1 = 1
    ∧ (Physics.resolveTilemapCollision c1Tm solidTilesGS c1E).isGrounded = false
    ∧ (Physics.resolveTilemapCollision c1Tm solidTilesGS c1E).velocityY = 450
    ∧ (Physics.resolveTilemapCollision c1Tm solidTilesGS c1E).y = c1E.y := by
  refine ⟨rfl, ?_, ?_, ?_, rfl, ?_, ?_, ?_⟩ <;>
    norm_num [Physics.resolveTilemapCollision, Physics.resolveVerticalCollision,
      Physics.resolveHorizontalCollision, Physics.horizStep, Physics.vertStep,
      Physics.snapPred, Physics.getBounds, Physics.hbW, Physics.hbH,
      Physics.rowColPairs, intRange_succ_left, intRange_eq_nil, tileAt,
      Physics.checkAABB, c1Tm, c1E, mkEntity, solidTilesGS]

/-- C1 (amended): if, during one fixed tick (dt = 1/60, fall speed ≤ 450),
the feet cross the top edge of a solid tile one of whose columns lies in the
feet band shrunk by 2 px on the left and 3 px on the right, then the vertical
pass snaps the feet exactly onto the tile top, zeroes velocity-Y and sets
`isGrounded` — such a landing never tunnels. -/
theorem landing_snap (tm : Tilemap) (solidTiles : List ℤ) (wasGrounded : Bool)
    (e : Entity) (r c : ℤ) (feetBefore : ℚ)
    (hts : tm.tileSize = 32)
    (hr0 : 0 ≤ r) (hrh : r < (tm.height : ℤ)) (hc0 : 0 ≤ c) (hcw : c < (tm.width : ℤ))
    (hsolid : solidTiles.contains (tileAt tm r c) = true)
    (hcl : ⌊((Physics.getBounds e).x + 2) / 32⌋ ≤ c)
    (hcr : c ≤ ⌊((Physics.getBounds e).x + (Physics.getBounds e).width - 3) / 32⌋)
    (hvy : 0 < e.velocityY) (hclamp : e.velocityY ≤ 450)
    (hint : (Physics.getBounds e).y + (Physics.getBounds e).height
        = feetBefore + e.velocityY * (1 / 60))
    (habove : feetBefore ≤ 32 * r)
    (hcross : 32 * r ≤ (Physics.getBounds e).y + (Physics.getBounds e).height) :
    (Physics.resolveVerticalCollision tm solidTiles wasGrounded e).isGrounded = true
    ∧ (Physics.resolveVerticalCollision tm solidTiles wasGrounded e).velocityY = 0
    ∧ (Physics.getBounds (Physics.resolveVerticalCollision tm solidTiles wasGrounded e)).y
        + (Physics.getBounds (Physics.resolveVerticalCollision tm solidTiles wasGrounded e)).height
      = 32 * r := by
  have hlt : (Physics.getBounds e).y + (Physics.getBounds e).height < 32 * r + 8 := by
    rw [hint]
    have h1 : e.velocityY * (1 / 60) ≤ 450 * (1 / 60) := by
      apply mul_le_mul_of_nonneg_right hclamp
      norm_num
    linarith
  have hground : ⌊((Physics.getBounds e).y + (Physics.getBounds e).height) / 32⌋ = r := by
    rw [Int.floor_eq_iff]
    constructor
    · rw [le_div_iff₀ (by norm_num : (0:ℚ) < 32)]
      linarith
    · rw [div_lt_iff₀ (by norm_num : (0:ℚ) < 32)]
      linarith
  have hpred : Physics.snapPred tm solidTiles
      ⌊((Physics.getBounds e).y + (Physics.getBounds e).height) / 32⌋
      ((Physics.getBounds e).y + (Physics.getBounds e).height) c = true := by
    rw [Physics.snapPred, hground, hts]
    simp only [Bool.and_eq_true, decide_eq_true_eq]
    refine ⟨⟨⟨⟨⟨⟨hr0, hrh⟩, hc0⟩, hcw⟩, hsolid⟩, ?_⟩, ?_⟩
    · linarith
    · linarith
  have hcond : ((wasGrounded || decide (0 ≤ e.velocityY)) &&
      (intRange ⌊((Physics.getBounds e).x + 2) / 32⌋
        ⌊((Physics.getBounds e).x + (Physics.getBounds e).width - 3) / 32⌋).any
        (Physics.snapPred tm solidTiles
          ⌊((Physics.getBounds e).y + (Physics.getBounds e).height) / 32⌋
          ((Physics.getBounds e).y + (Physics.getBounds e).height))) = true := by
    rw [Bool.and_eq_true]
    exact ⟨by simp [hvy.le], List.any_eq_true.mpr ⟨c, mem_intRange.mpr ⟨hcl, hcr⟩, hpred⟩⟩
  simp only [Physics.resolveVerticalCollision, hts]
  rw [if_pos hcond]
  refine ⟨rfl, rfl, ?_⟩
  simp only [Physics.getBounds, Physics.hbH] at hground ⊢
  rw [hground]
  ring

set_option maxHeartbeats 2000000

/-- `handleMovement` writes only `velocityX` and `facingRight`; every field
involved in the jump logic is preserved. -/
theorem handleMovement_preserves (p : Entity) (input : Input) (dt : ℚ) :
    (Player.handleMovement p input dt).velocityY = p.velocityY
    ∧ (Player.handleMovement p input dt).isGrounded = p.isGrounded
    ∧ (Player.handleMovement p input dt).jumpsRemaining = p.jumpsRemaining
    ∧ (Player.handleMovement p input dt).coyoteTimer = p.coyoteTimer
    ∧ (Player.handleMovement p input dt).jumpBufferTimer = p.jumpBufferTimer
    ∧ (Player.handleMovement p input dt).jumpBufferTime = p.jumpBufferTime
    ∧ (Player.handleMovement p input dt).coyoteTime = p.coyoteTime
    ∧ (Player.handleMovement p input dt).maxJumps = p.maxJumps
    ∧ (Player.handleMovement p input dt).jumpForce = p.jumpForce := by
  simp [Player.handleMovement, apply_ite Entity.velocityY, apply_ite Entity.isGrounded,
    apply_ite Entity.jumpsRemaining, apply_ite Entity.coyoteTimer,
    apply_ite Entity.jumpBufferTimer, apply_ite Entity.jumpBufferTime,
    apply_ite Entity.coyoteTime, apply_ite Entity.maxJumps, apply_ite Entity.jumpForce]

/-- `handleCrouch` writes only `isCrouching` and the hitbox fields; every
field involved in the jump logic is preserved. -/
theorem handleCrouch_preserves (p : Entity) (input : Input) :
    (Player.handleCrouch p input).velocityY = p.velocityY
    ∧ (Player.handleCrouch p input).isGrounded = p.isGrounded
    ∧ (Player.handleCrouch p input).jumpsRemaining = p.jumpsRemaining
    ∧ (Player.handleCrouch p input).coyoteTimer = p.coyoteTimer
    ∧ (Player.handleCrouch p input).jumpBufferTimer = p.jumpBufferTimer
    ∧ (Player.handleCrouch p input).jumpBufferTime = p.jumpBufferTime
    ∧ (Player.handleCrouch p input).coyoteTime = p.coyoteTime
    ∧ (Player.handleCrouch p input).maxJumps = p.maxJumps
    ∧ (Player.handleCrouch p input).jumpForce = p.jumpForce := by
  simp [Player.handleCrouch, apply_ite Entity.velocityY, apply_ite Entity.isGrounded,
    apply_ite Entity.jumpsRemaining, apply_ite Entity.coyoteTimer,
    apply_ite Entity.jumpBufferTimer, apply_ite Entity.jumpBufferTime,
    apply_ite Entity.coyoteTime, apply_ite Entity.maxJumps, apply_ite Entity.jumpForce]

/-- Grid and entity for the C1 amended-claim witness: feet at 35 crossing the
top (y = 32) of the solid tile at row 1, column 0, falling at 240 px/s. -/
def c1SnapTm : Tilemap := { width := 2, height := 2, tileSize := 32, data := [0, 0, 1, 1] }

/-- See `c1SnapTm`. -/
def c1SnapE : Entity := { mkEntity 4 5 24 30 with velocityY := 240 }

/-- C1 amended-claim witness: a concrete landing that snaps. -/
theorem landing_snap_witness :
    (Physics.resolveVerticalCollision c1SnapTm solidTilesGS false c1SnapE).isGrounded = true
    ∧ (Physics.resolveVerticalCollision c1SnapTm solidTilesGS false c1SnapE).velocityY = 0
    ∧ (Physics.getBounds (Physics.resolveVerticalCollision c1SnapTm solidTilesGS false c1SnapE)).y
        + (Physics.getBounds (Physics.resolveVerticalCollision c1SnapTm solidTilesGS false c1SnapE)).height
      = 32 * ((1 : ℤ) : ℚ) :=
  landing_snap c1SnapTm solidTilesGS false c1SnapE 1 0 31 rfl
    (by decide) (by decide) (by decide) (by decide) (by decide)
    (by norm_num [Physics.getBounds, c1SnapE, mkEntity])
    (by norm_num [Physics.getBounds, c1SnapE, mkEntity])
    (by norm_num [c1SnapE, mkEntity])
    (by norm_num [c1SnapE, mkEntity])
    (by norm_num [Physics.getBounds, c1SnapE, mkEntity])
    (by norm_num)
    (by norm_num [Physics.getBounds, c1SnapE, mkEntity])

/-- The airborne player of the C5 counterexample: left the ground without
jumping (one jump still unexpended), coyote window long expired. -/
def c5P : Entity := { mkPlayer 0 0 with isGrounded := false, coyoteTimer := -1 }

/-- Jump pressed this tick, nothing else. -/
def c5Input : Input :=
  { horizontalAxis := 0, crouchDown := false, jumpPressed := true,
    jumpReleased := false, actionPressed := false }

/-- C5 counterexample: with the coyote window expired (coyoteTimer = −1 ≪ 0)
a jump press still performs the jump, because `jumpsRemaining = 1` (the jump
count is consumed by jumping, not by walking off a ledge): velocityY becomes
−jumpForce = −520 and the jump count drops to 0. -/
theorem coyote_expired_jump_cex :
    c5P.isGrounded = false ∧ c5P.coyoteTimer < 0 ∧ c5P.velocityY = 0
    ∧ c5P.jumpsRemaining = 1
    ∧ (Player.handleInputSelf c5P c5Input (1 / 60)).velocityY = -520
    ∧ (Player.handleInputSelf c5P c5Input (1 / 60)).jumpsRemaining = 0 := by
  refine ⟨rfl, by norm_num [c5P, mkPlayer, mkEntity], rfl, rfl, ?_, ?_⟩ <;>
    norm_num [Player.handleInputSelf, Player.handleMovement, Player.handleCrouch,
      Player.jump, c5P, c5Input, mkPlayer, mkEntity]

/-- C5 (amended): for an airborne player whose jump press reaches the jump
check, the jump fires iff the coyote timer is still positive at the check or
unexpended jumps remain: within the coyote window it always fires; past the
window it still fires when `jumpsRemaining > 0` (e.g. after walking off a
ledge) and fails only when no jumps remain. -/
theorem coyote_jump_rule (p : Entity) (input : Input) (dt : ℚ)
    (hg : p.isGrounded = false)
    (hpress : input.jumpPressed = true)
    (hrel : input.jumpReleased = false)
    (hbt : 0 < p.jumpBufferTime) :
    (0 < p.coyoteTimer - dt →
        (Player.handleInputSelf p input dt).velocityY = -p.jumpForce
        ∧ (Player.handleInputSelf p input dt).isGrounded = false
        ∧ (Player.handleInputSelf p input dt).jumpsRemaining = p.jumpsRemaining - 1)
    ∧ (p.coyoteTimer - dt ≤ 0 → 0 < p.jumpsRemaining →
        (Player.handleInputSelf p input dt).velocityY = -p.jumpForce
        ∧ (Player.handleInputSelf p input dt).isGrounded = false
        ∧ (Player.handleInputSelf p input dt).jumpsRemaining = p.jumpsRemaining - 1)
    ∧ (p.coyoteTimer - dt ≤ 0 → p.jumpsRemaining ≤ 0 →
        (Player.handleInputSelf p input dt).velocityY = p.velocityY
        ∧ (Player.handleInputSelf p input dt).isGrounded = false
        ∧ (Player.handleInputSelf p input dt).jumpsRemaining = p.jumpsRemaining) := by
  obtain ⟨m1, m2, m3, m4, m5, m6, m7, m8, m9⟩ := handleMovement_preserves p input dt
  obtain ⟨c1, c2, c3, c4, c5, c6, c7, c8, c9⟩ :=
    handleCrouch_preserves (Player.handleMovement p input dt) input
  set q := Player.handleCrouch (Player.handleMovement p input dt) input with hq
  have hqg : q.isGrounded = false := by rw [c2, m2, hg]
  have hqv : q.velocityY = p.velocityY := by rw [c1, m1]
  have hqb : q.jumpBufferTime = p.jumpBufferTime := by rw [c6, m6]
  have hqc : q.coyoteTimer = p.coyoteTimer := by rw [c4, m4]
  have hqj : q.jumpsRemaining = p.jumpsRemaining := by rw [c3, m3]
  have hqf : q.jumpForce = p.jumpForce := by rw [c9, m9]
  refine ⟨fun h => ?_, fun h1 h2 => ?_, fun h1 h2 => ?_⟩
  · simp only [Player.handleInputSelf, ← hq, hpress, hrel, if_true, hqg, Bool.false_and,
      Bool.false_eq_true, if_false, hqb, hqc, hqj, hqf, Player.jump]
    rw [if_pos hbt, if_pos (Or.inl h)]
    simp [hqf]
  · simp only [Player.handleInputSelf, ← hq, hpress, hrel, if_true, hqg, Bool.false_and,
      Bool.false_eq_true, if_false, hqb, hqc, hqj, hqf, Player.jump]
    rw [if_pos hbt, if_pos (Or.inr h2)]
    simp [hqf]
  · simp only [Player.handleInputSelf, ← hq, hpress, hrel, if_true, hqg, Bool.false_and,
      Bool.false_eq_true, if_false, hqb, hqc, hqj, hqf, Player.jump]
    rw [if_pos hbt, if_neg (not_or.mpr ⟨not_lt.mpr h1, not_lt.mpr h2⟩)]
    simp [hqv, hqg, hqj]

/-- C5 amended-claim witness: the expired-window player with one jump left
(second clause), instantiated concretely. -/
theorem coyote_jump_rule_witness :
    c5P.coyoteTimer - 1 / 60 ≤ 0 ∧ (0 : ℤ) < c5P.jumpsRemaining ∧
    ((Player.handleInputSelf c5P c5Input (1 / 60)).velocityY = -c5P.jumpForce
      ∧ (Player.handleInputSelf c5P c5Input (1 / 60)).isGrounded = false
      ∧ (Player.handleInputSelf c5P c5Input (1 / 60)).jumpsRemaining
          = c5P.jumpsRemaining - 1) :=
  ⟨by norm_num [c5P, mkPlayer, mkEntity], by decide,
    (coyote_jump_rule c5P c5Input (1 / 60) rfl rfl rfl
      (by norm_num [c5P, mkPlayer, mkEntity])).2.1
      (by norm_num [c5P, mkPlayer, mkEntity]) (by decide)⟩

/-- C6: a non-invulnerable player with 3/3 hearts hit for 1 damage by a
source entity whose center is to its right ends with 2 hearts, is knocked
left (velocityX = −200 < 0) and upward (velocityY = −250), becomes
invulnerable for the configured duration and does not die; and `takeDamage`
is a complete no-op while invulnerable. -/
theorem takeDamage_spec (p s : Entity)
    (hinv : p.isInvulnerable = false) (hh : p.health = 3)
    (hsrc : p.centerX < s.centerX) :
    (Player.takeDamage p 1 (some s)).health = 2
    ∧ (Player.takeDamage p 1 (some s)).velocityX = -200
    ∧ (Player.takeDamage p 1 (some s)).velocityY = -250
    ∧ (Player.takeDamage p 1 (some s)).isInvulnerable = true
    ∧ (Player.takeDamage p 1 (some s)).invulnerabilityTime = p.invulnerabilityDuration
    ∧ (Player.takeDamage p 1 (some s)).isActive = p.isActive
    ∧ (∀ (q src : Entity) (a : ℚ), q.isInvulnerable = true →
        Player.takeDamage q a (some src) = q ∧ Player.takeDamage q a none = q) := by
  have hno : ¬(p.isInvulnerable = true) := by simp [hinv]
  simp only [Entity.centerX] at hsrc
  have hdir : ¬(s.x + s.width / 2 < p.x + p.width / 2) := not_lt.mpr hsrc.le
  have hndie : ¬(max 0 (p.health - 1) ≤ 0) := by rw [hh]; norm_num
  refine ⟨?_, ?_, ?_, ?_, ?_, ?_,
    fun q src a hq => ⟨by simp [Player.takeDamage, hq], by simp [Player.takeDamage, hq]⟩⟩ <;>
    · simp only [Player.takeDamage, if_neg hno, Entity.centerX, if_neg hdir, if_neg hndie, hh]
      norm_num

/-- C6 witness: a fresh player at the origin, a wolf to its right. -/
theorem takeDamage_spec_witness :
    (Player.takeDamage (mkPlayer 0 0) 1 (some (mkWolf 100 0))).health = 2
    ∧ (Player.takeDamage (mkPlayer 0 0) 1 (some (mkWolf 100 0))).velocityX = -200
    ∧ (Player.takeDamage (mkPlayer 0 0) 1 (some (mkWolf 100 0))).velocityY = -250
    ∧ (Player.takeDamage (mkPlayer 0 0) 1 (some (mkWolf 100 0))).isInvulnerable = true
    ∧ (Player.takeDamage (mkPlayer 0 0) 1 (some (mkWolf 100 0))).invulnerabilityTime
        = (mkPlayer 0 0).invulnerabilityDuration
    ∧ (Player.takeDamage (mkPlayer 0 0) 1 (some (mkWolf 100 0))).isActive
        = (mkPlayer 0 0).isActive
    ∧ (∀ (q src : Entity) (a : ℚ), q.isInvulnerable = true →
        Player.takeDamage q a (some src) = q ∧ Player.takeDamage q a none = q) :=
  takeDamage_spec (mkPlayer 0 0) (mkWolf 100 0) rfl rfl
    (by norm_num [Entity.centerX, mkPlayer, mkWolf, mkEnemy, mkEntity])

/-- C9: when an enemy in the attack state whose cooldown has elapsed overlaps
a non-invulnerable player, the attack applies the enemy's `damage` with no
source: health drops to `max 0 (health − damage)`, knockback is only upward
(velocityY = −250, velocityX unchanged), `die()` fires exactly when the
damage covers the remaining health, and the damage fields are 20 (base
enemy), 25 (Wolf), 30 (Boar). -/
theorem enemy_attack_spec (sq : ℚ → ℚ) (e p : Entity) (dt : ℚ)
    (hcool : e.attackCooldown - dt ≤ 0)
    (hcol : e.collidesWith p = true)
    (hinv : p.isInvulnerable = false) :
    (Enemy.attack sq e p dt).2.health = max 0 (p.health - e.damage)
    ∧ (Enemy.attack sq e p dt).2.velocityY = -250
    ∧ (Enemy.attack sq e p dt).2.velocityX = p.velocityX
    ∧ (p.health ≤ e.damage → (Enemy.attack sq e p dt).2.isActive = false)
    ∧ (e.damage < p.health → (Enemy.attack sq e p dt).2.isActive = p.isActive)
    ∧ (∀ x y w h : ℚ, (mkEnemy x y w h).damage = 20)
    ∧ (∀ x y : ℚ, (mkWolf x y).damage = 25)
    ∧ (∀ x y : ℚ, (mkBoar x y).damage = 30) := by
  have hno : ¬(p.isInvulnerable = true) := by simp [hinv]
  have hcol' : Entity.collidesWith
      { e with attackCooldown := e.attackCooldown - dt } p = true := by
    simpa [Entity.collidesWith, Entity.bounds] using hcol
  refine ⟨?_, ?_, ?_, fun hdie => ?_, fun hlive => ?_,
    fun x y w h => rfl, fun x y => rfl, fun x y => rfl⟩ <;>
    simp only [Enemy.attack, if_pos hcool, hcol', if_true, Player.takeDamage, if_neg hno,
      Player.die, apply_ite Prod.snd, ite_self]
  · split_ifs <;> rfl
  · split_ifs <;> rfl
  · split_ifs <;> rfl
  · split_ifs with h
    · rfl
    · exact absurd (sup_le_iff.mpr ⟨le_refl 0, by linarith⟩) h
  · split_ifs with h
    · have h2 := (sup_le_iff.mp h).2
      linarith
    · rfl

/-- C9 witness: a wolf attacking a fresh 3-heart player it overlaps, with the
cooldown already elapsed — 25 damage takes the player to 0 and kills it. -/
theorem enemy_attack_spec_witness :
    (Enemy.attack (fun q => q) (mkWolf 10 0) (mkPlayer 0 0) (1 / 60)).2.health
        = max 0 ((mkPlayer 0 0).health - (mkWolf 10 0).damage)
    ∧ ((mkPlayer 0 0).health ≤ (mkWolf 10 0).damage →
        (Enemy.attack (fun q => q) (mkWolf 10 0) (mkPlayer 0 0) (1 / 60)).2.isActive = false) :=
  ⟨(enemy_attack_spec (fun q => q) (mkWolf 10 0) (mkPlayer 0 0) (1 / 60)
      (by norm_num [mkWolf, mkEnemy, mkEntity])
      (by norm_num [Entity.collidesWith, Entity.bounds, mkWolf, mkEnemy, mkPlayer, mkEntity])
      rfl).1,
    (enemy_attack_spec (fun q => q) (mkWolf 10 0) (mkPlayer 0 0) (1 / 60)
      (by norm_num [mkWolf, mkEnemy, mkEntity])
      (by norm_num [Entity.collidesWith, Entity.bounds, mkWolf, mkEnemy, mkPlayer, mkEntity])
      rfl).2.2.2.1⟩

/-- C10: collecting never touches the heart fields — for every collectible
and player, `collect` preserves `health` and `maxHealth`, heals only energy
(clamped to `maxEnergy`, 100 for a constructed player) when `healAmount > 0`
and not yet collected, and is a no-op on an already-collected item; `heal`
touches only energy, hearts move only through `healHeart`, and a
hypothetical `'heart'` collectible type falls into the default branch of
`setupType` (value 5, healAmount 5) — no case invokes `healHeart`. -/
theorem collect_heals_energy_only (c p : Entity) :
    ((Collectible.collect c p).2.health = p.health
      ∧ (Collectible.collect c p).2.maxHealth = p.maxHealth)
    ∧ (c.isCollected = false → 0 < c.healAmount →
        (Collectible.collect c p).2.energy = min (p.energy + c.healAmount) p.maxEnergy)
    ∧ (c.isCollected = true → Collectible.collect c p = (c, p))
    ∧ (∀ (q : Entity) (a : ℚ), (Player.heal q a).health = q.health
        ∧ (Player.heal q a).maxHealth = q.maxHealth
        ∧ (Player.heal q a).energy = min (q.energy + a) q.maxEnergy)
    ∧ (∀ (q : Entity) (a : ℚ), (Player.healHeart q a).health = min (q.health + a) q.maxHealth)
    ∧ (∀ x y : ℚ, (mkPlayer x y).maxEnergy = 100)
    ∧ (∀ x y : ℚ, (mkCollectible x y "heart").healAmount = 5
        ∧ (mkCollectible x y "heart").value = 5) := by
  refine ⟨⟨?_, ?_⟩, fun h1 h2 => ?_, fun h1 => ?_,
    fun q a => ⟨rfl, rfl, rfl⟩, fun q a => rfl, fun x y => rfl,
    fun x y => ⟨?_, ?_⟩⟩
  · simp only [Collectible.collect]
    split_ifs <;> simp [Player.heal]
  · simp only [Collectible.collect]
    split_ifs <;> simp [Player.heal]
  · simp only [Collectible.collect]
    rw [if_neg (by simp [h1]), if_pos h2]
    simp [Player.heal]
  · simp [Collectible.collect, h1]
  · simp [mkCollectible, Collectible.setupType, mkEntity]
  · simp [mkCollectible, Collectible.setupType, mkEntity]

/-- C10 witness: collecting a berry heals 10 energy (clamped) and leaves the
player's hearts unchanged. -/
theorem collect_heals_energy_only_witness :
    (mkCollectible 5 5 "berry").isCollected = false
    ∧ 0 < (mkCollectible 5 5 "berry").healAmount
    ∧ (Collectible.collect (mkCollectible 5 5 "berry") (mkPlayer 0 0)).2.health
        = (mkPlayer 0 0).health
    ∧ (Collectible.collect (mkCollectible 5 5 "berry") (mkPlayer 0 0)).2.energy
        = min ((mkPlayer 0 0).energy + (mkCollectible 5 5 "berry").healAmount)
            (mkPlayer 0 0).maxEnergy :=
  ⟨rfl, by norm_num [mkCollectible, Collectible.setupType, mkEntity],
    (collect_heals_energy_only (mkCollectible 5 5 "berry") (mkPlayer 0 0)).1.1,
    (collect_heals_energy_only (mkCollectible 5 5 "berry") (mkPlayer 0 0)).2.1 rfl
      (by norm_num [mkCollectible, Collectible.setupType, mkEntity])⟩

/-- One paused patrol tick that does not yet exhaust the pause: count down,
velocity pinned to zero, nothing else changes. -/
theorem patrol_pause_cont (s : Entity) (hp : s.isPaused = true)
    (h : 0 < s.patrolPauseTime - 1 / 60) :
    Enemy.patrol s (1 / 60)
      = { s with velocityX := 0, patrolPauseTime := s.patrolPauseTime - 1 / 60 } := by
  simp only [Enemy.patrol, hp, if_true]
  rw [if_neg (not_le.mpr h)]

/-- The paused patrol tick that exhausts the pause: unpause, reset the
blocked timer and reverse the patrol direction. -/
theorem patrol_pause_end (s : Entity) (hp : s.isPaused = true)
    (h : s.patrolPauseTime - 1 / 60 ≤ 0) :
    Enemy.patrol s (1 / 60)
      = { s with velocityX := 0, patrolPauseTime := s.patrolPauseTime - 1 / 60,
                 isPaused := false, blockedTime := 0,
                 patrolDirection := s.patrolDirection * -1,
                 facingRight := decide (0 < s.patrolDirection * -1) } := by
  simp only [Enemy.patrol, hp, if_true]
  rw [if_pos h]


/-- The walking tick that reaches/overruns the right patrol bound: clamp to
the bound, zero the velocity and start the pause. -/
theorem patrol_clamp_tick (e : Entity)
    (h1 : e.isPaused = false) (h2 : e.patrolDirection = 1)
    (h6 : e.startX + e.patrolRange ≤ e.x)
    (h7 : 1 / 2 ≤ |e.x - e.lastX|) :
    Enemy.patrol e (1 / 60)
      = { e with velocityX := 0, facingRight := true, blockedTime := 0,
                 lastX := e.x, x := e.startX + e.patrolRange, isPaused := true,
                 patrolPauseTime := e.patrolPauseDuration } := by
  simp only [Enemy.patrol, h1, Bool.false_eq_true, if_false]
  have hC1 : ¬(|e.x - e.lastX| < 1 / 2 ∧ 10 < |e.patrolDirection * e.moveSpeed|) :=
    fun hc => absurd hc.1 (not_lt.mpr h7)
  rw [if_neg hC1]
  dsimp only
  have hC3 : 0 < e.patrolDirection ∧ e.startX + e.patrolRange ≤ e.x :=
    ⟨by rw [h2]; norm_num, h6⟩
  rw [if_pos hC3]
  simp [h2]

/-- Iterating paused ticks: after `k ≤ 119` ticks of a fresh 2-second pause
the enemy is unchanged except for the countdown. -/
theorem patrol_paused_iter (s : Entity) (hp : s.isPaused = true) (hv : s.velocityX = 0)
    (ht : s.patrolPauseTime = 2) :
    ∀ k : ℕ, k ≤ 119 →
      ((fun t => Enemy.patrol t (1 / 60))^[k] s)
        = { s with patrolPauseTime := 2 - (k : ℚ) / 60 } := by
  intro k
  induction k with
  | zero =>
      intro _
      rw [show (2 : ℚ) - (0 : ℕ) / 60 = s.patrolPauseTime by rw [ht]; norm_num]
      rfl
  | succ k ih =>
      intro hk
      rw [Function.iterate_succ_apply', ih (by omega)]
      rw [patrol_pause_cont]
      · simp only [hv]
        congr 1
        push_cast
        ring
      · exact hp
      · show 0 < (2 - (k : ℚ) / 60) - 1 / 60
        have hk' : (k : ℚ) ≤ 118 := by exact_mod_cast (by omega : k ≤ 118)
        linarith


/-- A walking patrol tick with direction −1, no accumulated blocked time and
the left bound strictly below: the enemy walks left at its configured speed
and stays unpaused. -/
theorem patrol_walk_left_tick (g : Entity)
    (hp : g.isPaused = false) (hd : g.patrolDirection = -1) (hb : g.blockedTime = 0)
    (hx : g.startX - g.patrolRange < g.x) :
    (Enemy.patrol g (1 / 60)).velocityX = -g.moveSpeed
    ∧ (Enemy.patrol g (1 / 60)).isPaused = false := by
  simp only [Enemy.patrol, hp, Bool.false_eq_true, if_false, hb, hd]
  by_cases hib : |g.x - g.lastX| < 1 / 2 ∧ 10 < |(-1 : ℚ) * g.moveSpeed|
  · rw [if_pos hib, if_neg (by norm_num : ¬((1 : ℚ) / 10 < 0 + 1 / 60))]
    dsimp only
    rw [if_neg (fun hc => absurd hc.1 (by norm_num : ¬((0 : ℚ) < -1)))]
    rw [if_neg (fun hc => absurd hc.2 (not_le.mpr hx))]
    refine ⟨?_, rfl⟩
    show (-1 : ℚ) * g.moveSpeed = -g.moveSpeed
    ring
  · rw [if_neg hib]
    dsimp only
    rw [if_neg (fun hc => absurd hc.1 (by norm_num : ¬((0 : ℚ) < -1)))]
    rw [if_neg (fun hc => absurd hc.2 (not_le.mpr hx))]
    refine ⟨?_, rfl⟩
    show (-1 : ℚ) * g.moveSpeed = -g.moveSpeed
    ring

/-- A stalled patrol tick (displacement below 0.5 px with speed above 10)
whose accumulated blocked time crosses 0.1 s, away from both patrol bounds:
the enemy pauses for the full pause duration with zero velocity. -/
theorem patrol_blocked_tick (f : Entity)
    (hp : f.isPaused = false)
    (hb1 : |f.x - f.lastX| < 1 / 2) (hb2 : 10 < |f.patrolDirection * f.moveSpeed|)
    (hb3 : 1 / 10 < f.blockedTime + 1 / 60)
    (hnb1 : 0 < f.patrolDirection → f.x < f.startX + f.patrolRange)
    (hnb2 : f.patrolDirection < 0 → f.startX - f.patrolRange < f.x) :
    (Enemy.patrol f (1 / 60)).isPaused = true
    ∧ (Enemy.patrol f (1 / 60)).patrolPauseTime = f.patrolPauseDuration
    ∧ (Enemy.patrol f (1 / 60)).velocityX = 0 := by
  simp only [Enemy.patrol, hp, Bool.false_eq_true, if_false]
  have hib : |f.x - f.lastX| < 1 / 2 ∧ 10 < |f.patrolDirection * f.moveSpeed| := ⟨hb1, hb2⟩
  rw [if_pos hib, if_pos hb3]
  dsimp only
  rw [if_neg (fun hc => absurd hc.2 (not_le.mpr (hnb1 hc.1)))]
  rw [if_neg (fun hc => absurd hc.2 (not_le.mpr (hnb2 hc.1)))]
  exact ⟨rfl, rfl, rfl⟩

/-- C8: an unpaused enemy with origin 500 and patrol range 100 walking right
at or past x = 600 with free recent movement is clamped to exactly 600,
pauses with zero velocity for exactly the 2-second pause duration (ticks 1
through 120 of the 1/60 s clock), unpauses with reversed direction on tick
121, and walks left (velocityX = −moveSpeed) on tick 122; and the same
pause/reverse is triggered, away from the bounds, when horizontal
displacement stalls below 0.5 px despite speed above 10 for longer than the
0.1 s blocked duration. -/
theorem enemy_patrol_bound_pause_reverse (e : Entity)
    (h1 : e.isPaused = false) (h2 : e.patrolDirection = 1)
    (h3 : e.startX = 500) (h4 : e.patrolRange = 100)
    (h5 : e.patrolPauseDuration = 2)
    (h6 : 600 ≤ e.x) (h7 : 1 / 2 ≤ |e.x - e.lastX|) :
    (∀ j : ℕ, j ≤ 119 →
        ((fun t => Enemy.patrol t (1 / 60))^[j + 1] e).x = 600
        ∧ ((fun t => Enemy.patrol t (1 / 60))^[j + 1] e).isPaused = true
        ∧ ((fun t => Enemy.patrol t (1 / 60))^[j + 1] e).velocityX = 0
        ∧ ((fun t => Enemy.patrol t (1 / 60))^[j + 1] e).patrolPauseTime = 2 - (j : ℚ) / 60)
    ∧ ((fun t => Enemy.patrol t (1 / 60))^[121] e).isPaused = false
    ∧ ((fun t => Enemy.patrol t (1 / 60))^[121] e).patrolDirection = -1
    ∧ ((fun t => Enemy.patrol t (1 / 60))^[121] e).x = 600
    ∧ ((fun t => Enemy.patrol t (1 / 60))^[122] e).velocityX = -e.moveSpeed
    ∧ ((fun t => Enemy.patrol t (1 / 60))^[122] e).isPaused = false
    ∧ (∀ f : Entity, f.isPaused = false →
        |f.x - f.lastX| < 1 / 2 → 10 < |f.patrolDirection * f.moveSpeed| →
        1 / 10 < f.blockedTime + 1 / 60 →
        (0 < f.patrolDirection → f.x < f.startX + f.patrolRange) →
        (f.patrolDirection < 0 → f.startX - f.patrolRange < f.x) →
        (Enemy.patrol f (1 / 60)).isPaused = true
        ∧ (Enemy.patrol f (1 / 60)).patrolPauseTime = f.patrolPauseDuration
        ∧ (Enemy.patrol f (1 / 60)).velocityX = 0) := by
  have h6' : e.startX + e.patrolRange ≤ e.x := by rw [h3, h4]; linarith
  have hs1 := patrol_clamp_tick e h1 h2 h6' h7
  have hiter := patrol_paused_iter
    { e with
      velocityX := 0, facingRight := true, blockedTime := 0,
      lastX := e.x, x := e.startX + e.patrolRange, isPaused := true,
      patrolPauseTime := e.patrolPauseDuration } rfl rfl h5
  have hstep : ∀ j : ℕ, (fun t => Enemy.patrol t (1 / 60))^[j + 1] e
      = (fun t => Enemy.patrol t (1 / 60))^[j]
          { e with
            velocityX := 0, facingRight := true, blockedTime := 0,
            lastX := e.x, x := e.startX + e.patrolRange, isPaused := true,
            patrolPauseTime := e.patrolPauseDuration } := by
    intro j
    rw [Function.iterate_succ_apply]
    exact congrArg _ hs1
  have hx600 : e.startX + e.patrolRange = 600 := by rw [h3, h4]; norm_num
  refine ⟨?_, ?_, ?_, ?_, ?_, ?_,
    fun f hp hb1 hb2 hb3 hnb1 hnb2 => patrol_blocked_tick f hp hb1 hb2 hb3 hnb1 hnb2⟩
  · intro j hj
    rw [hstep j, hiter j hj]
    exact ⟨hx600, rfl, rfl, rfl⟩
  · rw [show (121 : ℕ) = 120 + 1 from rfl, hstep 120, Function.iterate_succ_apply',
      hiter 119 (le_refl _), patrol_pause_end]
    · rfl
    · show (2 : ℚ) - (119 : ℕ) / 60 - 1 / 60 ≤ 0
      push_cast
      norm_num
  · rw [show (121 : ℕ) = 120 + 1 from rfl, hstep 120, Function.iterate_succ_apply',
      hiter 119 (le_refl _), patrol_pause_end]
    · show e.patrolDirection * -1 = -1
      rw [h2]
      norm_num
    · rfl
    · show (2 : ℚ) - (119 : ℕ) / 60 - 1 / 60 ≤ 0
      push_cast
      norm_num
  · rw [show (121 : ℕ) = 120 + 1 from rfl, hstep 120, Function.iterate_succ_apply',
      hiter 119 (le_refl _), patrol_pause_end]
    · exact hx600
    · rfl
    · show (2 : ℚ) - (119 : ℕ) / 60 - 1 / 60 ≤ 0
      push_cast
      norm_num
  · rw [show (122 : ℕ) = 121 + 1 from rfl, Function.iterate_succ_apply',
      show (121 : ℕ) = 120 + 1 from rfl, hstep 120, Function.iterate_succ_apply',
      hiter 119 (le_refl _)]
    nth_rewrite 2 [patrol_pause_end]
    · refine (patrol_walk_left_tick _ ?_ ?_ ?_ ?_).1
      · rfl
      · show e.patrolDirection * -1 = -1
        rw [h2]; norm_num
      · rfl
      · show e.startX - e.patrolRange < e.startX + e.patrolRange
        rw [h3, h4]; norm_num
    · rfl
    · show (2 : ℚ) - (119 : ℕ) / 60 - 1 / 60 ≤ 0
      push_cast
      norm_num
  · rw [show (122 : ℕ) = 121 + 1 from rfl, Function.iterate_succ_apply',
      show (121 : ℕ) = 120 + 1 from rfl, hstep 120, Function.iterate_succ_apply',
      hiter 119 (le_refl _)]
    nth_rewrite 2 [patrol_pause_end]
    · refine (patrol_walk_left_tick _ ?_ ?_ ?_ ?_).2
      · rfl
      · show e.patrolDirection * -1 = -1
        rw [h2]; norm_num
      · rfl
      · show e.startX - e.patrolRange < e.startX + e.patrolRange
        rw [h3, h4]; norm_num
    · rfl
    · show (2 : ℚ) - (119 : ℕ) / 60 - 1 / 60 ≤ 0
      push_cast
      norm_num

/-- Concrete C8 enemy: a base enemy at origin x = 500 with patrol range 100,
currently at the right bound x = 600, having moved 1 px since the last tick. -/
def c8E : Entity :=
  { mkEnemy 500 0 48 32 with patrolRange := 100, x := 600, lastX := 599 }

/-- C8 witness: the concrete enemy is clamped and paused on tick 1, reverses
on tick 121 and walks left on tick 122. -/
theorem enemy_patrol_bound_pause_reverse_witness :
    ((fun t => Enemy.patrol t (1 / 60))^[1] c8E).x = 600
    ∧ ((fun t => Enemy.patrol t (1 / 60))^[1] c8E).isPaused = true
    ∧ ((fun t => Enemy.patrol t (1 / 60))^[121] c8E).patrolDirection = -1
    ∧ ((fun t => Enemy.patrol t (1 / 60))^[121] c8E).isPaused = false
    ∧ ((fun t => Enemy.patrol t (1 / 60))^[122] c8E).velocityX = -c8E.moveSpeed := by
  have h := enemy_patrol_bound_pause_reverse c8E rfl rfl rfl rfl rfl
    (by show (600 : ℚ) ≤ 600; norm_num)
    (by show (1 : ℚ) / 2 ≤ |(600 : ℚ) - 599|; norm_num)
  exact ⟨(h.1 0 (by norm_num)).1, (h.1 0 (by norm_num)).2.1,
    h.2.2.1, h.2.1, h.2.2.2.2.1⟩

/-! ## Game loop (src/js/engine/Game.js)

`Game.gameLoop` computes `deltaTime = min(currentTime - lastTime, maxDeltaTime)`,
adds it to the accumulator, and runs `fixedUpdate(fixedTimeStep / 1000)` while
`accumulator >= fixedTimeStep`, subtracting `fixedTimeStep` each iteration.
The fractional remainder `alpha = accumulator / fixedTimeStep` is then passed to
`update(deltaTime / 1000, alpha)` and `render()`, which touch only camera,
animation and UI state, never the physics fields — so the simulation component
of the loop state is advanced exclusively by the fixed updates.  The `while`
loop is embedded fuel-style with fuel `stepCount acc = ⌊acc / fixedTimeStep⌋⁺`,
and `Game.runFixed_eq` / `Game.runFixed_rem_lt` prove that this fuel runs the
loop to completion (the remainder ends strictly below `fixedTimeStep`). -/

namespace Game

/-- `this.fixedTimeStep = 1000 / 60` (ms). -/
def fixedTimeStep : ℚ := 1000 / 60

/-- `this.maxDeltaTime = 100` (ms). -/
def maxDeltaTime : ℚ := 100

/-- Number of iterations of `while (accumulator >= fixedTimeStep)`. -/
def stepCount (acc : ℚ) : ℕ := (⌊acc / fixedTimeStep⌋).toNat

/-- Fuel-style embedding of the fixed-update while loop: each iteration calls
`fixedUpdate(this.fixedTimeStep / 1000)` and subtracts `fixedTimeStep` from the
accumulator.  Returns the final accumulator and simulation state. -/
def runFixedAux {S : Type} (u : ℚ → S → S) : ℕ → ℚ → S → ℚ × S
  | 0, acc, s => (acc, s)
  | n + 1, acc, s =>
      if fixedTimeStep ≤ acc then
        runFixedAux u n (acc - fixedTimeStep) (u (fixedTimeStep / 1000) s)
      else (acc, s)

/-- The while loop with exactly enough fuel. -/
def runFixed {S : Type} (u : ℚ → S → S) (acc : ℚ) (s : S) : ℚ × S :=
  runFixedAux u (stepCount acc) acc s

/-- The loop state carried across frames: `this.lastTime`,
`this.accumulator`, and the simulation state mutated by `fixedUpdate`. -/
structure LoopState (S : Type) where
  lastTime : ℚ
  accumulator : ℚ
  sim : S

/-- One call of `gameLoop(currentTime)` on the unpaused physics path. -/
def gameLoopFrame {S : Type} (u : ℚ → S → S) (st : LoopState S)
    (currentTime : ℚ) : LoopState S :=
  { lastTime := currentTime,
    accumulator :=
      (runFixed u (st.accumulator + min (currentTime - st.lastTime) maxDeltaTime) st.sim).1,
    sim :=
      (runFixed u (st.accumulator + min (currentTime - st.lastTime) maxDeltaTime) st.sim).2 }

/-- Successive frames driven by a list of `requestAnimationFrame` timestamps. -/
def runFrames {S : Type} (u : ℚ → S → S) (st : LoopState S) : List ℚ → LoopState S
  | [] => st
  | t :: ts => runFrames u (gameLoopFrame u st t) ts

/-- Total number of fixed updates executed over a timestamp list. -/
def frameSteps (lastTime acc : ℚ) : List ℚ → ℕ
  | [] => 0
  | t :: ts =>
      stepCount (acc + min (t - lastTime) maxDeltaTime)
        + frameSteps t
            (acc + min (t - lastTime) maxDeltaTime
              - (stepCount (acc + min (t - lastTime) maxDeltaTime) : ℚ) * fixedTimeStep) ts

theorem fixedTimeStep_pos : (0 : ℚ) < fixedTimeStep := by norm_num [fixedTimeStep]

/-- With fuel `stepCount acc` the while loop runs exactly `stepCount acc`
iterations: it returns the accumulator less the consumed whole steps and the
simulation advanced by that many constant-`dt` fixed updates. -/
theorem runFixedAux_eq {S : Type} (u : ℚ → S → S) :
    ∀ (n : ℕ) (acc : ℚ) (s : S), stepCount acc = n →
      runFixedAux u n acc s
        = (acc - (n : ℚ) * fixedTimeStep, (u (fixedTimeStep / 1000))^[n] s) := by
  intro n
  induction n with
  | zero =>
      intro acc s h
      simp [runFixedAux]
  | succ n ih =>
      intro acc s h
      have hΔ := fixedTimeStep_pos
      have hfloor : ⌊acc / fixedTimeStep⌋ = (n : ℤ) + 1 := by
        unfold stepCount at h
        omega
      have hge : fixedTimeStep ≤ acc := by
        have h1 : ((n : ℚ) + 1) ≤ acc / fixedTimeStep := by
          have := Int.floor_le (acc / fixedTimeStep)
          rw [hfloor] at this
          push_cast at this
          linarith
        have h2 : (1 : ℚ) ≤ acc / fixedTimeStep := by
          have : (0 : ℚ) ≤ (n : ℚ) := Nat.cast_nonneg n
          linarith
        have h3 := (le_div_iff₀ hΔ).mp h2
        linarith
      rw [runFixedAux, if_pos hge]
      have hsc : stepCount (acc - fixedTimeStep) = n := by
        unfold stepCount
        have hf : ⌊(acc - fixedTimeStep) / fixedTimeStep⌋ = (n : ℤ) := by
          rw [sub_div, div_self (ne_of_gt hΔ),
            show (1 : ℚ) = ((1 : ℤ) : ℚ) by norm_num, Int.floor_sub_int, hfloor]
          ring
        rw [hf]
        simp
      rw [ih (acc - fixedTimeStep) (u (fixedTimeStep / 1000) s) hsc]
      exact Prod.ext (by push_cast; ring) (Function.iterate_succ_apply _ n s).symm

/-- Characterization of `runFixed`. -/
theorem runFixed_eq {S : Type} (u : ℚ → S → S) (acc : ℚ) (s : S) :
    runFixed u acc s
      = (acc - (stepCount acc : ℚ) * fixedTimeStep,
          (u (fixedTimeStep / 1000))^[stepCount acc] s) :=
  runFixedAux_eq u (stepCount acc) acc s rfl

/-- The fuel is sufficient: the loop exits with the accumulator strictly below
one fixed step, i.e. `alpha = accumulator / fixedTimeStep < 1` afterwards. -/
theorem runFixed_rem_lt {S : Type} (u : ℚ → S → S) (acc : ℚ) (s : S) :
    (runFixed u acc s).1 < fixedTimeStep := by
  rw [runFixed_eq]
  dsimp only
  have hΔ := fixedTimeStep_pos
  have h1 : acc / fixedTimeStep < (⌊acc / fixedTimeStep⌋ : ℚ) + 1 :=
    Int.lt_floor_add_one _
  have h2 : ((⌊acc / fixedTimeStep⌋ : ℤ) : ℚ) ≤ ((⌊acc / fixedTimeStep⌋.toNat : ℤ) : ℚ) := by
    exact_mod_cast Int.self_le_toNat _
  have h3 : acc < ((stepCount acc : ℚ) + 1) * fixedTimeStep := by
    rw [← div_lt_iff₀ hΔ]
    unfold stepCount
    push_cast at h2 ⊢
    linarith
  rw [add_mul, one_mul] at h3
  linarith

/-- The simulation component after any frame sequence is the fixed update
iterated `frameSteps` times — nothing from the render path feeds in. -/
theorem runFrames_sim {S : Type} (u : ℚ → S → S) :
    ∀ (ts : List ℚ) (st : LoopState S),
      (runFrames u st ts).sim
        = (u (fixedTimeStep / 1000))^[frameSteps st.lastTime st.accumulator ts] st.sim := by
  intro ts
  induction ts with
  | nil =>
      intro st
      simp [runFrames, frameSteps]
  | cons t ts ih =>
      intro st
      simp only [runFrames]
      rw [ih]
      simp only [gameLoopFrame]
      rw [runFixed_eq]
      dsimp only
      rw [frameSteps, Nat.add_comm, Function.iterate_add_apply]

end Game

/-- C4: the game loop caps each frame's delta at `maxDeltaTime = 100` ms, adds
it to the accumulator and consumes whole `fixedTimeStep = 1000/60` ms steps,
each fixed update receiving the same constant `dt = fixedTimeStep / 1000`; the
remainder (the render-path `alpha` numerator) stays strictly below one step
and never feeds back into fixed updates, so the simulation state is exactly
the fixed update iterated `frameSteps` times — and two runs over the same
start state whose timestamp partitions yield the same total fixed-step count
reach identical simulation states. -/
theorem gameLoop_fixed_step_determinism {S : Type} (u : ℚ → S → S)
    (l1 a1 l2 a2 : ℚ) (s : S) (ts1 ts2 : List ℚ)
    (hsteps : Game.frameSteps l1 a1 ts1 = Game.frameSteps l2 a2 ts2) :
    (Game.runFrames u ⟨l1, a1, s⟩ ts1).sim
        = (u (Game.fixedTimeStep / 1000))^[Game.frameSteps l1 a1 ts1] s
    ∧ (Game.runFrames u ⟨l1, a1, s⟩ ts1).sim = (Game.runFrames u ⟨l2, a2, s⟩ ts2).sim
    ∧ (∀ (acc : ℚ) (t : S), (Game.runFixed u acc t).1 < Game.fixedTimeStep
        ∧ (Game.runFixed u acc t).2
            = (u (Game.fixedTimeStep / 1000))^[Game.stepCount acc] t) := by
  refine ⟨Game.runFrames_sim u ts1 ⟨l1, a1, s⟩, ?_,
    fun acc t => ⟨Game.runFixed_rem_lt u acc t, by rw [Game.runFixed_eq]⟩⟩
  rw [Game.runFrames_sim u ts1 ⟨l1, a1, s⟩, Game.runFrames_sim u ts2 ⟨l2, a2, s⟩]
  dsimp only
  rw [hsteps]

/-- Evaluation helper: `stepCount` at a concrete accumulator value. -/
theorem stepCount_eval (acc : ℚ) (n : ℕ)
    (h1 : (n : ℚ) * Game.fixedTimeStep ≤ acc)
    (h2 : acc < ((n : ℚ) + 1) * Game.fixedTimeStep) :
    Game.stepCount acc = n := by
  have hΔ := Game.fixedTimeStep_pos
  unfold Game.stepCount
  have hf : ⌊acc / Game.fixedTimeStep⌋ = (n : ℤ) := by
    rw [Int.floor_eq_iff]
    constructor
    · rw [le_div_iff₀ hΔ]
      exact_mod_cast h1
    · rw [div_lt_iff₀ hΔ]
      push_cast
      exact h2
  rw [hf]
  simp

/-- C4 witness: a 50 ms frame and a 25 ms + 25 ms pair of frames both run
exactly 3 fixed updates from a fresh loop state, and the resulting simulation
states agree (counting updates on `S = ℕ`). -/
theorem gameLoop_fixed_step_determinism_witness :
    Game.frameSteps 0 0 [50] = Game.frameSteps 0 0 [25, 50]
    ∧ (Game.runFrames (fun _ n => n + 1) ⟨0, 0, (0 : ℕ)⟩ [50]).sim
        = (Game.runFrames (fun _ n => n + 1) ⟨0, 0, (0 : ℕ)⟩ [25, 50]).sim
    ∧ (Game.runFrames (fun _ n => n + 1) ⟨0, 0, (0 : ℕ)⟩ [50]).sim = 3 := by
  have hsc50 : Game.stepCount ((0 : ℚ) + min ((50 : ℚ) - 0) Game.maxDeltaTime) = 3 := by
    rw [show (0 : ℚ) + min ((50 : ℚ) - 0) Game.maxDeltaTime = 50 by
      norm_num [Game.maxDeltaTime]]
    exact stepCount_eval 50 3 (by norm_num [Game.fixedTimeStep])
      (by norm_num [Game.fixedTimeStep])
  have hsc25 : Game.stepCount ((0 : ℚ) + min ((25 : ℚ) - 0) Game.maxDeltaTime) = 1 := by
    rw [show (0 : ℚ) + min ((25 : ℚ) - 0) Game.maxDeltaTime = 25 by
      norm_num [Game.maxDeltaTime]]
    exact stepCount_eval 25 1 (by norm_num [Game.fixedTimeStep])
      (by norm_num [Game.fixedTimeStep])
  have h1 : Game.frameSteps 0 0 [50] = 3 := by
    simp only [Game.frameSteps, hsc50]
  have h2 : Game.frameSteps 0 0 [25, 50] = 3 := by
    simp only [Game.frameSteps, hsc25, Nat.cast_one]
    rw [show (0 : ℚ) + min ((25 : ℚ) - 0) Game.maxDeltaTime - 1 * Game.fixedTimeStep
          + min ((50 : ℚ) - 25) Game.maxDeltaTime = 100 / 3 by
      norm_num [Game.maxDeltaTime, Game.fixedTimeStep]]
    rw [stepCount_eval (100 / 3) 2 (by norm_num [Game.fixedTimeStep])
      (by norm_num [Game.fixedTimeStep])]
  have h := gameLoop_fixed_step_determinism (fun _ n => n + 1) 0 0 0 0 (0 : ℕ) [50] [25, 50]
    (h1.trans h2.symm)
  exact ⟨h1.trans h2.symm, h.2.1, by rw [h.1, h1]; rfl⟩

/-! ## GameScene (src/js/scenes/GameScene.js)

The scene's entity store: `loadLevel` pushes the player, then the sheep, then
the enemies, then the collectibles into `this.entities`, keeping them also in
`this.sheep` / `this.enemies` / `this.collectibles`; all of these hold
references to the same objects.  The world state below keeps one copy of each
entity partitioned by those lists, and every phase visits them in the
`this.entities` push order, so aliasing is modelled by threading the updated
player/sheep through the later loop iterations exactly as the shared objects
would be seen in JS.  `this.player.nearbyInteractable` is an object reference
that only ever holds a sheep; it is embedded as an index into the sheep list.
Scene-level HUD counters (`collectiblesGathered`, `goldenWoolFound`), audio,
camera shake and the `gameOver` overlay are presentation-only and omitted. -/

namespace GameScene

/-- The mutable scene state touched by `GameScene.fixedUpdate`. -/
structure World where
  tilemap : Tilemap
  player : Entity
  sheepL : List Entity
  enemiesL : List Entity
  collectiblesL : List Entity
  playerSpawnX : ℚ
  playerSpawnY : ℚ

/-- Phase 1, `this.player.handleInput(this.game.input, dt)`: the player's own
input handling followed by the interaction branch
(`if (input.isPressed('action') && this.nearbyInteractable) this.interact(...)`),
where `interact` rescues a not-yet-rescued sheep and records it. -/
def handleInput (w : World) (input : Input) (dt : ℚ) : World :=
  let p := Player.handleInputSelf w.player input dt
  if input.actionPressed then
    match p.nearbyInteractable with
    | some i =>
        match w.sheepL.get? i with
        | some s =>
            if s.type = "sheep" && !s.isRescued then
              { w with player := { p with rescuedSheepCount := p.rescuedSheepCount + 1 },
                       sheepL := w.sheepL.set i (Sheep.rescue s) }
            else { w with player := p }
        | none => { w with player := p }
    | none => { w with player := p }
  else { w with player := p }

/-- Phase 2, `this.enemies.forEach(enemy => enemy.updateWithPlayer(dt, this.player))`:
each enemy's behavior in list order, threading the player (an attack can
damage it) through the iterations. -/
def updateEnemies (sq : ℚ → ℚ) (w : World) (dt : ℚ) : World :=
  let r := w.enemiesL.foldl
    (fun (acc : List Entity × Entity) e =>
      let ep := Enemy.updateWithPlayer sq e acc.2 dt
      (acc.1 ++ [ep.1], ep.2))
    ([], w.player)
  { w with enemiesL := r.1, player := r.2 }

/-- Phase 3, the gravity loop: for every entity in push order, gravity is
applied unless the entity is a collectible or a not-yet-rescued sheep (the
early `return` skips the sheep's `fixedUpdate` as well), and then the
entity's own `fixedUpdate(dt)` runs — the sheep's follow behavior reads the
player as already updated this tick. -/
def gravityAndFixedUpdate (sq : ℚ → ℚ) (w : World) (dt : ℚ) : World :=
  let p := Player.fixedUpdate (Physics.applyGravity w.player dt)
  { w with
    player := p,
    sheepL := w.sheepL.map (fun s =>
      if !s.isRescued then s else Sheep.fixedUpdate sq (Physics.applyGravity s dt) p),
    enemiesL := w.enemiesL.map (fun e => Entity.fixedUpdateBase (Physics.applyGravity e dt)),
    collectiblesL := w.collectiblesL.map Entity.fixedUpdateBase }

/-- Phase 4, the position loop: `updatePosition` for every entity except
not-yet-rescued sheep. -/
def updatePositions (w : World) (dt : ℚ) : World :=
  { w with
    player := Physics.updatePosition w.player dt,
    sheepL := w.sheepL.map (fun s =>
      if !s.isRescued then s else Physics.updatePosition s dt),
    enemiesL := w.enemiesL.map (fun e => Physics.updatePosition e dt),
    collectiblesL := w.collectiblesL.map (fun c => Physics.updatePosition c dt) }

/-- Phase 5, the collision loop: tilemap resolution for the player, the
enemies, and the rescued sheep. -/
def resolveCollisions (w : World) : World :=
  { w with
    player := Physics.resolveTilemapCollision w.tilemap solidTilesGS w.player,
    sheepL := w.sheepL.map (fun s =>
      if s.isRescued then Physics.resolveTilemapCollision w.tilemap solidTilesGS s else s),
    enemiesL := w.enemiesL.map (Physics.resolveTilemapCollision w.tilemap solidTilesGS) }

/-- The `margin = 32` edge clamp of `enforceWorldBoundaries()`, applied to
the player and to every enemy / rescued sheep. -/
def clampToWorld (worldWidth : ℚ) (e : Entity) : Entity :=
  let e1 := if e.x < 32 then { e with x := 32, velocityX := 0 } else e
  if worldWidth - 32 < e1.x + e1.width then
    { e1 with x := worldWidth - 32 - e1.width, velocityX := 0 } else e1

/-- Phase 6, `enforceWorldBoundaries()`: clamp entities to the world edges;
a player below the world bottom takes 1 damage (no source) and respawns at
the spawn point. -/
def enforceWorldBoundaries (w : World) : World :=
  let worldWidth := (w.tilemap.width : ℚ) * w.tilemap.tileSize
  let worldHeight := (w.tilemap.height : ℚ) * w.tilemap.tileSize
  let p1 := clampToWorld worldWidth w.player
  let p2 :=
    if worldHeight < p1.y then
      if !p1.isInvulnerable then
        let p := Player.takeDamage p1 1 none
        { p with x := w.playerSpawnX, y := w.playerSpawnY,
                 velocityX := 0, velocityY := 0 }
      else p1
    else p1
  { w with
    player := p2,
    sheepL := w.sheepL.map (fun s => if s.isRescued then clampToWorld worldWidth s else s),
    enemiesL := w.enemiesL.map (clampToWorld worldWidth) }

/-- The sheep loop of `checkCollisions()`, recursing with the running index
`i` (the position of the head sheep in `this.sheep`): interaction hints for
close unrescued sheep (also setting `player.nearbyInteractable` /
`canInteract`), and a 5 px push applied to a rescued sheep overlapping the
player. -/
def checkSheepAux (sq : ℚ → ℚ) (i : ℕ) (p : Entity) :
    List Entity → Entity × List Entity
  | [] => (p, [])
  | s :: rest =>
      let distance := Entity.distanceTo sq p s
      let ps : Entity × Entity :=
        if !s.isRescued && decide (distance < 60) then
          ({ p with nearbyInteractable := some i, canInteract := true },
           { s with showInteractionHint := true })
        else (p, { s with showInteractionHint := false })
      let p1 := ps.1
      let s1 := ps.2
      let s2 :=
        if s1.isRescued && p1.collidesWith s1 then
          let dx := s1.centerX - p1.centerX
          let pushDir : ℚ := if 0 ≤ dx then 1 else -1
          { s1 with x := s1.x + pushDir * 5 }
        else s1
      let r := checkSheepAux sq (i + 1) p1 rest
      (r.1, s2 :: r.2)

/-- The sheep loop of `checkCollisions()`. -/
def checkSheep (sq : ℚ → ℚ) (p : Entity) (sheepL : List Entity) : Entity × List Entity :=
  checkSheepAux sq 0 p sheepL

/-- The collectible loop of `checkCollisions()`. -/
def checkCollectibles (p : Entity) (cs : List Entity) : Entity × List Entity :=
  cs.foldl
    (fun (acc : Entity × List Entity) c =>
      if !c.isCollected && acc.1.collidesWith c then
        let cp := Collectible.collect c acc.1
        (cp.2, acc.2 ++ [cp.1])
      else (acc.1, acc.2 ++ [c]))
    (p, [])

/-- The enemy loop of `checkCollisions()`: contact damage
`player.takeDamage(1, enemy)` for every overlapping enemy while the player is
not invulnerable. -/
def checkEnemyContacts (p : Entity) (es : List Entity) : Entity :=
  es.foldl
    (fun p e =>
      if p.collidesWith e && !p.isInvulnerable then Player.takeDamage p 1 (some e) else p)
    p

/-- `checkWaterHazard()`: the player bounces out of a water tile (id 6) under
its feet, taking 1 damage unless invulnerable; every rescued sheep over water
is bounced out. -/
def checkWaterHazard (tm : Tilemap) (p : Entity) (sheepL : List Entity) :
    Entity × List Entity :=
  let ts := tm.tileSize
  let playerTileX := ⌊p.centerX / ts⌋
  let playerTileY := ⌊(p.y + p.height) / ts⌋
  let p :=
    if 0 ≤ playerTileY ∧ playerTileY < (tm.height : ℤ)
        ∧ 0 ≤ playerTileX ∧ playerTileX < (tm.width : ℤ) then
      if tileAt tm playerTileY playerTileX = 6 then
        if !p.isInvulnerable then
          let p := Player.takeDamage p 1 none
          { p with velocityY := -400,
                   velocityX := if p.facingRight then -200 else 200 }
        else p
      else p
    else p
  let sheepL := sheepL.map (fun s =>
    if !s.isRescued then s
    else
      let sheepTileX := ⌊s.centerX / ts⌋
      let sheepTileY := ⌊(s.y + s.height) / ts⌋
      if 0 ≤ sheepTileY ∧ sheepTileY < (tm.height : ℤ)
          ∧ 0 ≤ sheepTileX ∧ sheepTileX < (tm.width : ℤ) then
        if tileAt tm sheepTileY sheepTileX = 6 then
          { s with velocityY := -350,
                   velocityX := if s.facingRight then -150 else 150 }
        else s
      else s)
  (p, sheepL)

/-- Phase 7, `checkCollisions()`: the sheep loop, the collectible loop, the
enemy contact loop, then the water hazard check. -/
def checkCollisions (sq : ℚ → ℚ) (w : World) : World :=
  let ps := checkSheep sq w.player w.sheepL
  let pc := checkCollectibles ps.1 w.collectiblesL
  let p := checkEnemyContacts pc.1 w.enemiesL
  let pw := checkWaterHazard w.tilemap p ps.2
  { w with player := pw.1, sheepL := pw.2, collectiblesL := pc.2 }

/-- `GameScene.fixedUpdate(dt)` (the `!this.player` early return cannot fire:
the world always carries a player): input, enemy behavior, the interleaved
gravity+`fixedUpdate` loop, position integration, tilemap collision,
boundaries, and entity checks — in source order. -/
def fixedUpdate (sq : ℚ → ℚ) (w : World) (input : Input) (dt : ℚ) : World :=
  checkCollisions sq
    (enforceWorldBoundaries
      (resolveCollisions
        (updatePositions
          (gravityAndFixedUpdate sq
            (updateEnemies sq (handleInput w input dt) dt) dt) dt)))

/-- The behavior-first phase the SPEC describes (all entities' behavior
updates, including each entity's `fixedUpdate`, before any gravity): stated
from the spec's words, not from the source, to be compared against
`GameScene.fixedUpdate`.  Skip rules (unrescued sheep, collectibles) are kept
identical to the code so that only the phase ORDER differs. -/
def behaviorAll (sq : ℚ → ℚ) (w : World) (input : Input) (dt : ℚ) : World :=
  let w := handleInput w input dt
  let w := updateEnemies sq w dt
  let p := Player.fixedUpdate w.player
  { w with
    player := p,
    sheepL := w.sheepL.map (fun s => if !s.isRescued then s else Sheep.fixedUpdate sq s p),
    enemiesL := w.enemiesL.map Entity.fixedUpdateBase,
    collectiblesL := w.collectiblesL.map Entity.fixedUpdateBase }

/-- The whole-population gravity phase of the SPEC's ordering (gravity for
every non-collectible, non-unrescued-sheep entity, after all behavior). -/
def gravityAll (w : World) (dt : ℚ) : World :=
  { w with
    player := Physics.applyGravity w.player dt,
    sheepL := w.sheepL.map (fun s =>
      if !s.isRescued then s else Physics.applyGravity s dt),
    enemiesL := w.enemiesL.map (fun e => Physics.applyGravity e dt) }

/-- The tick as the SPEC orders it: behavior for all entities, then gravity
for all, then integration, collisions and checks. -/
def fixedUpdateSpecOrder (sq : ℚ → ℚ) (w : World) (input : Input) (dt : ℚ) : World :=
  checkCollisions sq
    (enforceWorldBoundaries
      (resolveCollisions
        (updatePositions (gravityAll (behaviorAll sq w input dt) dt) dt)))



/-- The tile grid of the C7 scenario: 40 × 20 empty tiles of size 32
(out-of-range reads are 0/undefined and non-solid, as in JS). -/
def c7Tm : Tilemap := ⟨40, 20, 32, []⟩

/-- A grounded player standing at (200, 100). -/
def c7Player : Entity := { mkPlayer 200 100 with isGrounded := true }

/-- A rescued, grounded sheep at (400, 300), following the player — far
enough (distance > 120) and low enough (feet more than 40 px below the
leader's) that `followLeader` jumps this tick. -/
def c7SheepE : Entity :=
  { mkSheep 400 300 with
    isRescued := true, isFollowing := true, hasLeader := true, isGrounded := true }

/-- The C7 world: that player and sheep, no enemies or collectibles. -/
def c7W : GameScene.World := ⟨c7Tm, c7Player, [c7SheepE], [], [], 200, 100⟩

/-- The idle input snapshot for the C7 tick. -/
def c7In : Input := ⟨0, false, false, false, false⟩

end GameScene

set_option maxHeartbeats 8000000

/-- C7 counterexample: on `c7W` the sheep's follow behavior and gravity are
applied in opposite orders by the code and by the spec's schedule, and the
tick outputs differ observably — the code's interleaved loop runs the
grounded sheep's gravity first (a no-op) and then its jump (velocity-Y
−350), while the spec's behavior-before-gravity order jumps first, loses the
grounded flag, and then has gravity mutate the jump velocity to −335; the
integrated positions differ accordingly. -/
theorem gs_phase_order_spec_cex :
    ((GameScene.fixedUpdate (fun q => q) GameScene.c7W GameScene.c7In (1 / 60)).sheepL.map
        (fun s => (s.velocityY, s.y))) = [(-350, 1765 / 6)]
    ∧ ((GameScene.fixedUpdateSpecOrder (fun q => q) GameScene.c7W GameScene.c7In
        (1 / 60)).sheepL.map (fun s => (s.velocityY, s.y))) = [(-335, 3533 / 12)] := by
  constructor <;>
    norm_num [GameScene.fixedUpdate, GameScene.fixedUpdateSpecOrder, GameScene.handleInput,
      GameScene.updateEnemies, GameScene.gravityAndFixedUpdate, GameScene.updatePositions,
      GameScene.resolveCollisions, GameScene.clampToWorld, GameScene.enforceWorldBoundaries,
      GameScene.checkSheep, GameScene.checkSheepAux, GameScene.checkCollectibles,
      GameScene.checkEnemyContacts, GameScene.checkWaterHazard, GameScene.checkCollisions,
      GameScene.behaviorAll, GameScene.gravityAll,
      GameScene.c7W, GameScene.c7Tm, GameScene.c7Player, GameScene.c7SheepE, GameScene.c7In,
      Player.handleInputSelf, Player.handleMovement, Player.handleCrouch, Player.fixedUpdate,
      Sheep.fixedUpdate, Sheep.followLeader, Sheep.wander,
      Entity.fixedUpdateBase, Entity.storePreviousPosition, Entity.centerX, Entity.centerY,
      Entity.bounds, Entity.collidesWith, Entity.distanceTo, Entity.distSqTo,
      Physics.applyGravity, Physics.updatePosition, Physics.resolveTilemapCollision,
      Physics.resolveVerticalCollision, Physics.resolveHorizontalCollision,
      Physics.horizStep, Physics.vertStep, Physics.snapPred, Physics.getBounds,
      Physics.hbW, Physics.hbH, Physics.rowColPairs, Physics.checkAABB,
      Physics.gravity, Physics.maxFallSpeed, Physics.fallGravityMultiplier,
      tileAt, intRange_succ_left, intRange_eq_nil, solidTilesGS,
      mkPlayer, mkSheep, mkEntity]

/-- C7 (amended): within one fixed tick, `GameScene.fixedUpdate` runs player
input, then all enemy behavior, then one loop that interleaves gravity with
each entity's own `fixedUpdate` per entity (so the sheep's follow behavior
runs after that same sheep's gravity, not before all gravity as the spec
orders it — see the counterexample), then position integration for all
entities, then tilemap collision resolution, boundaries and entity checks;
and the integration phase moves every entity (player, enemies, rescued
sheep, collectibles) by exactly `velocity * dt` of the state produced by the
earlier phases, so a velocity written by any behavior phase is the one
integrated in the same tick. -/
theorem gs_fixed_update_phase_order (sq : ℚ → ℚ) (w : GameScene.World)
    (input : Input) (dt : ℚ) :
    GameScene.fixedUpdate sq w input dt
      = GameScene.checkCollisions sq
          (GameScene.enforceWorldBoundaries
            (GameScene.resolveCollisions
              (GameScene.updatePositions
                (GameScene.gravityAndFixedUpdate sq
                  (GameScene.updateEnemies sq (GameScene.handleInput w input dt) dt) dt) dt)))
    ∧ (GameScene.updatePositions w dt).player.x = w.player.x + w.player.velocityX * dt
    ∧ (GameScene.updatePositions w dt).player.y = w.player.y + w.player.velocityY * dt
    ∧ (GameScene.updatePositions w dt).enemiesL
        = w.enemiesL.map (fun e =>
            { e with x := e.x + e.velocityX * dt, y := e.y + e.velocityY * dt })
    ∧ (GameScene.updatePositions w dt).collectiblesL
        = w.collectiblesL.map (fun c =>
            { c with x := c.x + c.velocityX * dt, y := c.y + c.velocityY * dt })
    ∧ (GameScene.updatePositions w dt).sheepL
        = w.sheepL.map (fun s =>
            if !s.isRescued then s
            else { s with x := s.x + s.velocityX * dt, y := s.y + s.velocityY * dt }) := by
  refine ⟨rfl, rfl, rfl, ?_, ?_, ?_⟩ <;>
    simp [GameScene.updatePositions, Physics.updatePosition]
